import Mathlib

/-!
Verification of the texture-to-voxel/GLB conversion pipeline.

Shallow embedding of the geometry and GLB construction code:
* `generateGLBFromPixels` (src/src/glbGenerator.js) — voxel extrusion of an
  RGBA pixel grid plus the glTF document metadata it emits.
* `buildGeometry` / `buildElement` (geometryBuilder) — cuboid mesh generation
  from JSON model elements.
* `TextureAtlas` (`getUV`, `resolveTextureChain`, `getTextureByRef`,
  `buildAtlas` layout, `nextPowerOf2`) — atlas construction and UV remapping.
* `buildGLB` framing — the GLB 2.0 byte-stream layout shared by both emitters.
* `resolveTextureKey` (jsonModelLoader) — the loader-side alias resolution.

JavaScript numbers are modelled as exact rationals (ℚ); all arithmetic the
claims exercise (halves, sixteenths, atlas tiles) is exact in binary floating
point, and float literals from the source are carried as their decimal values.
Flat JS arrays of vertex components are modelled as lists of tuples (one entry
per vertex), so a JS `positions.length / 3` becomes `positions.length` here.
JS exceptions are modelled with `Except String`; `null`/`undefined` with
`Option`.
-/

namespace TexVox

abbrev Vec3 := ℚ × ℚ × ℚ

/-- Coordinate-system option accepted by the voxel generator
(`'z-up'` or `'y-up'`). -/
inductive CoordSystem where
  | zUp
  | yUp
deriving DecidableEq

/-- Mesh accumulation state: the four parallel arrays of
`generateGLBFromPixels` / `buildElement`. Positions and normals are lists of
3-tuples, UVs of 2-tuples (the JS code uses flat component arrays). -/
structure MeshSt where
  positions : List Vec3
  normals : List Vec3
  uvs : List (ℚ × ℚ)
  indices : List Nat
deriving DecidableEq

def MeshSt.empty : MeshSt := ⟨[], [], [], []⟩

/-! ## Voxel mesh builder (src/src/glbGenerator.js) -/

/-- Opaque-pixel scan of `generateGLBFromPixels` (lines 29–41): all `(x, y)`
in row-major order whose alpha byte is ≥ 128.  Out-of-range reads (JS
`undefined`) compare as not-opaque, modelled by a default byte of 0. -/
def opaquePixels (width height channels : Nat) (pixels : List Nat) :
    List (Nat × Nat) :=
  (List.range height).flatMap (fun y =>
    (List.range width).filterMap (fun x =>
      let index := (y * width + x) * channels
      let alpha := pixels.getD (index + 3) 0
      if alpha ≥ 128 then some (x, y) else none))

/-- The `addVertex` closure (glbGenerator.js lines 76–86): in `'z-up'` mode
the pushed position/normal is `(x, z, -y)` / `(nx, nz, -ny)`, otherwise the
arguments unchanged. -/
def addVertex (cs : CoordSystem) (x y z nx ny nz u v : ℚ) (st : MeshSt) :
    MeshSt :=
  match cs with
  | .zUp =>
      { st with
        positions := st.positions ++ [(x, z, -y)]
        normals := st.normals ++ [(nx, nz, -ny)]
        uvs := st.uvs ++ [(u, v)] }
  | .yUp =>
      { st with
        positions := st.positions ++ [(x, y, z)]
        normals := st.normals ++ [(nx, ny, nz)]
        uvs := st.uvs ++ [(u, v)] }

/-- One face block of the per-pixel loop: record the current vertex count as
the base index, push four vertices through `addVertex`, then push the six
indices `(base, base+1, base+2, base, base+2, base+3)`.  Each of the six face
blocks in glbGenerator.js lines 88–141 is one instance of this pattern. -/
def addQuad (cs : CoordSystem) (p0 p1 p2 p3 : Vec3) (n : Vec3)
    (t0 t1 t2 t3 : ℚ × ℚ) (st : MeshSt) : MeshSt :=
  let base := st.positions.length
  let st := addVertex cs p0.1 p0.2.1 p0.2.2 n.1 n.2.1 n.2.2 t0.1 t0.2 st
  let st := addVertex cs p1.1 p1.2.1 p1.2.2 n.1 n.2.1 n.2.2 t1.1 t1.2 st
  let st := addVertex cs p2.1 p2.2.1 p2.2.2 n.1 n.2.1 n.2.2 t2.1 t2.2 st
  let st := addVertex cs p3.1 p3.2.1 p3.2.2 n.1 n.2.1 n.2.2 t3.1 t3.2 st
  { st with
    indices := st.indices ++
      [base, base + 1, base + 2, base, base + 2, base + 3] }

/-- Body of the per-opaque-pixel loop of `generateGLBFromPixels`
(lines 59–142): six quads (front, back, top, bottom, right, left) with the
source's vertex order, normals and per-face UV assignment. -/
def addPixel (cs : CoordSystem) (width height : Nat)
    (pixelSize halfWidth halfHeight thickness : ℚ) (p : Nat × Nat)
    (st : MeshSt) : MeshSt :=
  let left := (p.1 : ℚ) * pixelSize - halfWidth
  let right := ((p.1 : ℚ) + 1) * pixelSize - halfWidth
  let bottom := ((height : ℚ) - (p.2 : ℚ) - 1) * pixelSize - halfHeight
  let top := ((height : ℚ) - (p.2 : ℚ)) * pixelSize - halfHeight
  let uvLeft := (p.1 : ℚ) / (width : ℚ)
  let uvRight := ((p.1 : ℚ) + 1) / (width : ℚ)
  let uvTop := (p.2 : ℚ) / (height : ℚ)
  let uvBottom := ((p.2 : ℚ) + 1) / (height : ℚ)
  let frontZ := thickness / 2
  let backZ := -thickness / 2
  -- Front face (+Z in model space)
  let st := addQuad cs (left, bottom, frontZ) (right, bottom, frontZ)
    (right, top, frontZ) (left, top, frontZ) (0, 0, 1)
    (uvLeft, uvBottom) (uvRight, uvBottom) (uvRight, uvTop) (uvLeft, uvTop) st
  -- Back face (-Z in model space)
  let st := addQuad cs (right, bottom, backZ) (left, bottom, backZ)
    (left, top, backZ) (right, top, backZ) (0, 0, -1)
    (uvLeft, uvBottom) (uvRight, uvBottom) (uvRight, uvTop) (uvLeft, uvTop) st
  -- Top face (+Y in model space)
  let st := addQuad cs (left, top, frontZ) (right, top, frontZ)
    (right, top, backZ) (left, top, backZ) (0, 1, 0)
    (uvLeft, uvTop) (uvRight, uvTop) (uvRight, uvTop) (uvLeft, uvTop) st
  -- Bottom face (-Y in model space)
  let st := addQuad cs (left, bottom, backZ) (right, bottom, backZ)
    (right, bottom, frontZ) (left, bottom, frontZ) (0, -1, 0)
    (uvLeft, uvBottom) (uvRight, uvBottom) (uvRight, uvBottom)
    (uvLeft, uvBottom) st
  -- Right face (+X in model space)
  let st := addQuad cs (right, bottom, frontZ) (right, bottom, backZ)
    (right, top, backZ) (right, top, frontZ) (1, 0, 0)
    (uvRight, uvBottom) (uvRight, uvBottom) (uvRight, uvTop)
    (uvRight, uvTop) st
  -- Left face (-X in model space)
  let st := addQuad cs (left, bottom, backZ) (left, bottom, frontZ)
    (left, top, frontZ) (left, top, backZ) (-1, 0, 0)
    (uvLeft, uvBottom) (uvLeft, uvBottom) (uvLeft, uvTop) (uvLeft, uvTop) st
  st

/-- The voxel mesh produced by `generateGLBFromPixels` before serialization:
sizing constants (lines 47–51) and the fold of the per-pixel loop. -/
def voxelMesh (cs : CoordSystem) (width height channels : Nat)
    (pixels : List Nat) (scale : ℚ) : MeshSt :=
  let ps := opaquePixels width height channels pixels
  let pixelSize := scale / (max width height : Nat)
  let halfWidth := (width : ℚ) * pixelSize / 2
  let halfHeight := (height : ℚ) * pixelSize / 2
  let thickness := pixelSize * (1 / 2)
  ps.foldl
    (fun st p => addPixel cs width height pixelSize halfWidth halfHeight
      thickness p st)
    MeshSt.empty

/-- Per-component min/max fold over positions (glbGenerator.js lines 144–154
and `calculateBounds` of the geometry builder).  The JS fold starts from
`±Infinity`; `none` models the not-yet-seen-a-vertex state, so the result is
`none` exactly when there are no positions. -/
def calculateBounds (ps : List Vec3) : Option (Vec3 × Vec3) :=
  ps.foldl
    (fun acc p =>
      match acc with
      | none => some (p, p)
      | some (mn, mx) =>
          some ((min mn.1 p.1, min mn.2.1 p.2.1, min mn.2.2 p.2.2),
                (max mx.1 p.1, max mx.2.1 p.2.1, max mx.2.2 p.2.2)))
    none

/-- Materials in the emitted glTF JSON.  `none` in an `Option` field means the
JSON key is absent from the document. -/
structure Material where
  metallicFactor : ℚ
  roughnessFactor : ℚ
  doubleSided : Option Bool
  alphaMode : Option String
  alphaCutoff : Option ℚ
  baseColorTexture : Bool
deriving DecidableEq

/-- Node-rotation quaternion X component written by glbGenerator.js line 199:
the literal `0.7071067811865475`. -/
def quatX : ℚ := 7071067811865475 / 10000000000000000

/-- Node-rotation quaternion W component written by glbGenerator.js line 199:
the literal `0.7071067811865476`. -/
def quatW : ℚ := 7071067811865476 / 10000000000000000

/-- The parts of the emitted glTF JSON document that the claims inspect. -/
structure GltfDoc where
  nodeRotation : Option (List ℚ)
  posBounds : Option (Vec3 × Vec3)
  vertexCount : Nat
  indexCount : Nat
  indexComponentType : Nat
  material : Material
  hasImage : Bool
deriving DecidableEq

/-- glTF document emitted by `generateGLBFromPixels` (glbGenerator.js lines
29–293): `none` when there are no opaque pixels (the JS function returns
`null`).  The index accessor's componentType is `5125` when
`indices.length > 65535`, else `5123` (lines 160 and 249); the node rotation
is attached only in `'z-up'` mode (lines 198–213); the material (lines
261–268) carries only `metallicFactor`/`roughnessFactor`, plus
`baseColorTexture` when texture data was passed (line 292). -/
def generateGLBFromPixels (width height channels : Nat) (pixels : List Nat)
    (scale : ℚ) (cs : CoordSystem) (hasTextureData : Bool) : Option GltfDoc :=
  let ops := opaquePixels width height channels pixels
  if ops.isEmpty then none
  else
    let mesh := voxelMesh cs width height channels pixels scale
    some
      { nodeRotation :=
          if cs = .zUp then some [quatX, 0, 0, quatW] else none
        posBounds := calculateBounds mesh.positions
        vertexCount := mesh.positions.length
        indexCount := mesh.indices.length
        indexComponentType :=
          if mesh.indices.length > 65535 then 5125 else 5123
        material :=
          { metallicFactor := 0
            roughnessFactor := 1
            doubleSided := none
            alphaMode := none
            alphaCutoff := none
            baseColorTexture := hasTextureData }
        hasImage := hasTextureData }

/-! ## GLB byte framing (glbGenerator.js lines 296–358, entityGlbGenerator
`buildGLB` lines 167–228 — the two emitters' framing code is identical). -/

/-- 4-byte alignment helper `align4` (`Math.ceil(n / 4) * 4`). -/
def align4 (n : Nat) : Nat := ((n + 3) / 4) * 4

/-- Little-endian 32-bit encoding used by `Buffer.writeUInt32LE`. -/
def writeUInt32LE (n : Nat) : List Nat :=
  [n % 256, n / 256 % 256, n / 65536 % 256, n / 16777216 % 256]

/-- GLB framing shared by both emitters: 12-byte header (magic `0x46546C67`,
version 2, total length), JSON chunk (length, type `0x4E4F534A`, bytes,
space padding) and BIN chunk (length, type `0x004E4942`, bytes, zero
padding), given the serialized JSON bytes and the concatenated binary
buffer. -/
def buildGLB (jsonBuffer binBuffer : List Nat) : List Nat :=
  let jsonPaddedLength := align4 jsonBuffer.length
  let jsonPadding := jsonPaddedLength - jsonBuffer.length
  let binPaddedLength := align4 binBuffer.length
  let binPadding := binPaddedLength - binBuffer.length
  let totalLength := 12 + 8 + jsonPaddedLength + 8 + binPaddedLength
  writeUInt32LE 0x46546C67 ++ writeUInt32LE 2 ++ writeUInt32LE totalLength ++
    writeUInt32LE jsonPaddedLength ++ writeUInt32LE 0x4E4F534A ++
    jsonBuffer ++ List.replicate jsonPadding 0x20 ++
    writeUInt32LE binPaddedLength ++ writeUInt32LE 0x004E4942 ++
    binBuffer ++ List.replicate binPadding 0x00

/-! ## Texture atlas (textureAtlas.js) -/

/-- Per-texture record held by the atlas: source path, dimensions, and the
tile position assigned by `buildAtlas`. -/
structure TextureInfo where
  path : String
  width : Nat
  height : Nat
  x : Nat
  y : Nat
deriving DecidableEq

/-- The `TextureAtlas` state the pure computations read: the insertion-ordered
`textures` map and the layout fields set by `buildAtlas`. -/
structure TextureAtlas where
  textures : List (String × TextureInfo)
  atlasWidth : Nat
  atlasHeight : Nat
  textureSize : Nat
deriving DecidableEq

/-- JS substring test `hay.includes(needle)` on character lists. -/
def listIncludes (needle : List Char) : List Char → Bool
  | [] => needle.isEmpty
  | c :: rest => needle.isPrefixOf (c :: rest) || listIncludes needle rest

/-- JS `hay.includes(needle)`. -/
def strIncludes (hay needle : String) : Bool := listIncludes needle.data hay.data

/-- JS `String.replace` with a string pattern replaces only the first
occurrence. -/
def replaceFirstList (needle repl : List Char) : List Char → List Char
  | [] => []
  | c :: rest =>
      if needle.isPrefixOf (c :: rest) then repl ++ (c :: rest).drop needle.length
      else c :: replaceFirstList needle repl rest

/-- JS `s.replace(pattern, repl)` for string patterns (first occurrence only;
our uses never pass an empty pattern). -/
def jsReplace (s pattern repl : String) : String :=
  String.mk (replaceFirstList pattern.data repl.data s.data)

/-- Stringification JS applies when a nullish value reaches a string context
(`path.includes(ref)` with `ref === null` searches for `"null"`; the
`undefined` case never influences any input we evaluate and is conflated). -/
def jsToString (o : Option String) : String :=
  match o with
  | none => "null"
  | some s => s

/-- JS `s.startsWith(pre)`, computed on the character lists (Lean's
`String.startsWith` is byte-position based and is avoided for kernel
reducibility; the semantics agree). -/
def jsStartsWith (s pre : String) : Bool := pre.data.isPrefixOf s.data

/-- JS `s.slice(1)` for the `#`-stripping call sites (all keys are ASCII, so
dropping one character matches dropping one code unit). -/
def jsDropOne (s : String) : String := String.mk (s.data.drop 1)

/-- `TextureAtlas.resolveTextureChain` (textureAtlas.js lines 233–244):
chase `#` keys through `rawTextures` with a depth cap of 10; a missing or
falsy value resolves to `null`. -/
def resolveTextureChain (rawTextures : List (String × String)) (key : String)
    (depth : Nat) : Option String :=
  if depth > 10 then none
  else
    match List.lookup key rawTextures with
    | none => none
    | some value =>
        if value = "" then none
        else if jsStartsWith value "#" then
          resolveTextureChain rawTextures (jsDropOne value) (depth + 1)
        else some value
termination_by 11 - depth
decreasing_by simp_wf; omega

/-- Loop body of `TextureAtlas.getTextureByRef` (textureAtlas.js lines
249–255): scan the loaded textures for a path containing `ref` or `ref` with
a leading `block/`/`entity/` stripped.  When `ref` is `null` and the first
`includes` test fails, the JS expression `ref.replace('block/', '')` throws a
`TypeError`. -/
def getTextureByRefFind (ref : Option String) :
    List (String × TextureInfo) → Except String (Option TextureInfo)
  | [] => .ok none
  | (path, texture) :: rest =>
      if strIncludes path (jsToString ref) then .ok (some texture)
      else
        match ref with
        | none => .error "TypeError: null has no method replace"
        | some r =>
            if strIncludes path (jsReplace (jsReplace r "block/" "") "entity/" "") then
              .ok (some texture)
            else getTextureByRefFind ref rest

/-- `TextureAtlas.getTextureByRef` (textureAtlas.js lines 249–263): direct
scan, then fallback to the first loaded texture, else `null`. -/
def getTextureByRef (atlas : TextureAtlas) (ref : Option String) :
    Except String (Option TextureInfo) :=
  match getTextureByRefFind ref atlas.textures with
  | .error e => .error e
  | .ok (some t) => .ok (some t)
  | .ok none => .ok ((atlas.textures.head?).map Prod.snd)

/-- Reference-to-path resolution step at the top of `getUV` (textureAtlas.js
lines 157–162): a `#`-prefixed reference is chased through
`resolveTextureChain`, other strings pass through, nullish stays nullish. -/
def resolveRefPath (textureRef : Option String)
    (rawTextures : List (String × String)) : Option String :=
  match textureRef with
  | none => none
  | some r =>
      if jsStartsWith r "#" then resolveTextureChain rawTextures (jsDropOne r) 0
      else some r

/-- `TextureAtlas.getUV` (textureAtlas.js lines 151–228): default UV,
reference resolution, 0–16 → 0–1 normalization, flip detection, atlas
remapping when more than one texture is loaded, flip re-application, and the
per-face-orientation quad assignment. -/
def getUV (atlas : TextureAtlas) (textureRef : Option String)
    (uvOpt : Option (ℚ × ℚ × ℚ × ℚ)) (rawTextures : List (String × String))
    (faceName : String) : Except String (List ℚ) :=
  let uv := uvOpt.getD (0, 0, 16, 16)
  let texturePath := resolveRefPath textureRef rawTextures
  match getTextureByRef atlas texturePath with
  | .error e => .error e
  | .ok texture =>
      let u1 := uv.1 / 16
      let v1 := uv.2.1 / 16
      let u2 := uv.2.2.1 / 16
      let v2 := uv.2.2.2 / 16
      let flipU := u1 > u2
      let flipV := v1 > v2
      let up := if flipU then (u2, u1) else (u1, u2)
      let vp := if flipV then (v2, v1) else (v1, v2)
      let remapped :=
        match texture with
        | some tex =>
            if atlas.textures.length > 1 then
              let atlasU1 := (tex.x : ℚ) / (atlas.atlasWidth : ℚ)
              let atlasV1 := (tex.y : ℚ) / (atlas.atlasHeight : ℚ)
              let atlasU2 :=
                ((tex.x : ℚ) + (atlas.textureSize : ℚ)) / (atlas.atlasWidth : ℚ)
              let atlasV2 :=
                ((tex.y : ℚ) + (atlas.textureSize : ℚ)) / (atlas.atlasHeight : ℚ)
              (atlasU1 + up.1 * (atlasU2 - atlasU1),
               atlasV1 + vp.1 * (atlasV2 - atlasV1),
               atlasU1 + up.2 * (atlasU2 - atlasU1),
               atlasV1 + vp.2 * (atlasV2 - atlasV1))
            else (up.1, vp.1, up.2, vp.2)
        | none => (up.1, vp.1, up.2, vp.2)
      let u1 := remapped.1
      let v1 := remapped.2.1
      let u2 := remapped.2.2.1
      let v2 := remapped.2.2.2
      let uf := if flipU then (u2, u1) else (u1, u2)
      let vf := if flipV then (v2, v1) else (v1, v2)
      let u1 := uf.1
      let u2 := uf.2
      let v1 := vf.1
      let v2 := vf.2
      if faceName = "up" then .ok [u1, v1, u1, v2, u2, v2, u2, v1]
      else if faceName = "down" then .ok [u1, v1, u2, v1, u2, v2, u1, v2]
      else .ok [u1, v2, u2, v2, u2, v1, u1, v1]

/-- `nextPowerOf2` (textureAtlas.js lines 277–281): double `p` from 1 until
`p ≥ n`.  The JS `while` loop is modelled with a fuel of `n` doublings, which
is more than the at most `log₂ n + 1` iterations the loop performs. -/
def nextPowerOf2Go (n : Nat) : Nat → Nat → Nat
  | 0, p => p
  | fuel + 1, p => if p < n then nextPowerOf2Go n fuel (p * 2) else p

/-- `nextPowerOf2(n)`. -/
def nextPowerOf2 (n : Nat) : Nat := nextPowerOf2Go n n 1

/-- Texture-size accumulation of `loadTextures` (textureAtlas.js lines
46–48): starting from the default 16, take each source's width when larger. -/
def loadTexturesSize (widths : List Nat) : Nat :=
  widths.foldl (fun ts w => if w > ts then w else ts) 16

/-- `Math.ceil(Math.sqrt(n))` for the grid dimension: the least `k` with
`k * k ≥ n`, found by counting up (structurally, with `n + 1` steps of fuel,
which always suffices since `n * n ≥ n`). -/
def ceilSqrtGo (n : Nat) : Nat → Nat → Nat
  | 0, k => k
  | fuel + 1, k => if k * k ≥ n then k else ceilSqrtGo n fuel (k + 1)

/-- `Math.ceil(Math.sqrt(n))`. -/
def ceilSqrt (n : Nat) : Nat := ceilSqrtGo n (n + 1) 0

/-- Layout part of `TextureAtlas.buildAtlas` (textureAtlas.js lines 62–107):
atlas dimensions and per-texture tile positions.  Input is the
insertion-ordered list of loaded textures as `(path, width, height)`; image
compositing is I/O and out of scope.  Zero textures give the 16×16
placeholder; one texture passes through; otherwise an `⌈√count⌉` grid of
`textureSize` tiles, rounded up to a power of two. -/
def buildAtlas (texs : List (String × Nat × Nat)) : TextureAtlas :=
  let textureSize := loadTexturesSize (texs.map (fun t => t.2.1))
  match texs with
  | [] => { textures := [], atlasWidth := 16, atlasHeight := 16, textureSize }
  | [(p, w, h)] =>
      { textures := [(p, ⟨p, w, h, 0, 0⟩)], atlasWidth := w, atlasHeight := h,
        textureSize }
  | _ =>
      let gridSize := ceilSqrt texs.length
      let dim := nextPowerOf2 (gridSize * textureSize)
      { textures :=
          texs.enum.map (fun ie =>
            let i := ie.1
            let p := ie.2.1
            (p, ⟨p, ie.2.2.1, ie.2.2.2, i % gridSize * textureSize,
                 i / gridSize * textureSize⟩))
        atlasWidth := dim
        atlasHeight := dim
        textureSize }

/-! ## Loader-side alias resolution (jsonModelLoader.js lines 206–225) -/

/-- `resolveTextureKey` of the JSON model loader.  The JS function recurses on
`#` references with **no depth parameter**; the outer `Nat` argument is pure
fuel modelling the call stack, and `none` means the computation did not
complete within that many nested calls.  `some r` is the value the JS
function returns (`r = none` standing for JS `null`). -/
def resolveTextureKeyFuel (textures : List (String × String)) :
    Nat → Option String → Option (Option String)
  | 0, _ => none
  | _ + 1, none => some none
  | fuel + 1, some tk =>
      if tk = "" then some none
      else
        let key := if jsStartsWith tk "#" then jsDropOne tk else tk
        match List.lookup key textures with
        | none => some none
        | some textureRef =>
            if textureRef = "" then some none
            else if jsStartsWith textureRef "#" then
              resolveTextureKeyFuel textures fuel (some textureRef)
            else some (some textureRef)

/-! ## Cuboid geometry builder (geometryBuilder.js) -/

/-- One `FACE_DEFINITIONS` entry: corner indices of the quad and the
pre-rotation normal. -/
structure FaceDef where
  verts : List Nat
  normal : Vec3
deriving DecidableEq

/-- `FACE_DEFINITIONS` (geometryBuilder.js lines 9–16), as the lookup
`buildElement` performs on it (an unknown face name yields `undefined`). -/
def FACE_DEFINITIONS (faceName : String) : Option FaceDef :=
  if faceName = "north" then some ⟨[1, 0, 3, 2], (0, 0, -1)⟩
  else if faceName = "south" then some ⟨[4, 5, 6, 7], (0, 0, 1)⟩
  else if faceName = "east" then some ⟨[5, 1, 2, 6], (1, 0, 0)⟩
  else if faceName = "west" then some ⟨[0, 4, 7, 3], (-1, 0, 0)⟩
  else if faceName = "up" then some ⟨[3, 7, 6, 2], (0, 1, 0)⟩
  else if faceName = "down" then some ⟨[0, 1, 5, 4], (0, -1, 0)⟩
  else none

/-- A face entry of an element (`texture`, optional `uv`, optional
rotation in degrees). -/
structure FaceData where
  texture : Option String
  uv : Option (ℚ × ℚ × ℚ × ℚ)
  rotation : Option ℚ
deriving DecidableEq

/-- An element's rotation `{ origin, axis, angle }`; each piece may be absent
in the JSON. -/
structure ElementRotation where
  origin : Option Vec3
  axis : Option String
  angle : Option ℚ
deriving DecidableEq

/-- A cuboid element.  JS property names `from`/`to` are Lean keywords, hence
`fromV`/`toV`; `none` models an absent (undefined) property, and the faces map
is the insertion-ordered list `Object.entries` iterates. -/
structure Element where
  fromV : Option Vec3
  toV : Option Vec3
  rotation : Option ElementRotation
  faces : Option (List (String × FaceData))
deriving DecidableEq

/-- The slice of a parsed model that `buildGeometry` reads. -/
structure Model where
  name : String
  elements : List Element
  rawTextures : List (String × String)
deriving DecidableEq

/-- Trigonometry interface: `Math.cos` and `Math.sin` of an angle given in
degrees, as used by `applyRotation`/`rotateNormal`.  The JS code computes
these in floating point; the embedding abstracts them as a parameter pair
`(cosDeg, sinDeg)`, which the rotation-free claims never evaluate. -/
structure Trig where
  cosDeg : ℚ → ℚ
  sinDeg : ℚ → ℚ

/-- A concrete `Trig` instance for closed evaluations whose inputs carry no
rotation (any values would do; the rotation path is never reached). -/
def trigTrivial : Trig := ⟨fun _ => 1, fun _ => 0⟩

/-- Core of `applyRotation` (geometryBuilder.js lines 128–169): translate by
`-origin`, rotate about the axis, translate back. -/
def rotateVertex (trig : Trig) (origin : Vec3) (axis : String) (angle : ℚ)
    (vertex : Vec3) : Vec3 :=
  let c := trig.cosDeg angle
  let s := trig.sinDeg angle
  let v : Vec3 := (vertex.1 - origin.1, vertex.2.1 - origin.2.1,
    vertex.2.2 - origin.2.2)
  let rotated : Vec3 :=
    if axis = "x" then (v.1, v.2.1 * c - v.2.2 * s, v.2.1 * s + v.2.2 * c)
    else if axis = "y" then (v.1 * c + v.2.2 * s, v.2.1, -v.1 * s + v.2.2 * c)
    else if axis = "z" then (v.1 * c - v.2.1 * s, v.1 * s + v.2.1 * c, v.2.2)
    else v
  (rotated.1 + origin.1, rotated.2.1 + origin.2.1, rotated.2.2 + origin.2.2)

/-- `applyRotation` (geometryBuilder.js lines 119–170): default origin
`[8,8,8]`; a falsy `axis` or `angle` (absent, empty, or zero) leaves the
vertices unchanged. -/
def applyRotation (trig : Trig) (vertices : List Vec3)
    (rotation : ElementRotation) : List Vec3 :=
  let origin := rotation.origin.getD (8, 8, 8)
  match rotation.axis, rotation.angle with
  | some axis, some angle =>
      if axis = "" ∨ angle = 0 then vertices
      else vertices.map (rotateVertex trig origin axis angle)
  | _, _ => vertices

/-- `rotateNormal` (geometryBuilder.js lines 175–205): same axis rotation
about the origin, with the same falsy guard. -/
def rotateNormal (trig : Trig) (normal : Vec3) (rotation : ElementRotation) :
    Vec3 :=
  match rotation.axis, rotation.angle with
  | some axis, some angle =>
      if axis = "" ∨ angle = 0 then normal
      else rotateVertex trig (0, 0, 0) axis angle normal
  | _, _ => normal

/-- `autoGenerateUV` (geometryBuilder.js lines 210–226), given the element's
`from`/`to` (which exist whenever it is called). -/
def autoGenerateUV (f t : Vec3) (faceName : String) : ℚ × ℚ × ℚ × ℚ :=
  if faceName = "north" ∨ faceName = "south" then
    (f.1, 16 - t.2.1, t.1, 16 - f.2.1)
  else if faceName = "east" ∨ faceName = "west" then
    (f.2.2, 16 - t.2.1, t.2.2, 16 - f.2.1)
  else if faceName = "up" ∨ faceName = "down" then
    (f.1, f.2.2, t.1, t.2.2)
  else (0, 0, 16, 16)

/-- `applyUVRotation` (geometryBuilder.js lines 234–255): cycle the four UV
pairs by `rotation/90` positions.  The step count is exact for the schema's
multiples of 90. -/
def applyUVRotation (uv : List ℚ) (rotation : ℚ) : List ℚ :=
  if rotation = 0 then uv
  else
    let steps := ((rotation / 90).floor.toNat) % 4
    let uvPairs := [(uv.getD 0 0, uv.getD 1 0), (uv.getD 2 0, uv.getD 3 0),
      (uv.getD 4 0, uv.getD 5 0), (uv.getD 6 0, uv.getD 7 0)]
    (List.range 4).flatMap (fun i =>
      let pair := uvPairs.getD ((i + steps) % 4) (0, 0)
      [pair.1, pair.2])

/-- Per-face body of `buildElement` (geometryBuilder.js lines 72–110): skip
unknown face names; fetch (or auto-derive) the UV, run it through
`getUV` (which can throw), apply the face UV rotation, push the four corner
vertices with the (possibly rotated) face normal, and push the six quad
indices. -/
def buildFace (trig : Trig) (f t : Vec3) (rotation : Option ElementRotation)
    (vertices : List Vec3) (atlas : TextureAtlas)
    (rawTextures : List (String × String)) (st : MeshSt)
    (face : String × FaceData) : Except String MeshSt :=
  match FACE_DEFINITIONS face.1 with
  | none => .ok st
  | some faceDef =>
      let faceData := face.2
      let baseIndex := st.positions.length
      let uv := faceData.uv.getD (autoGenerateUV f t face.1)
      match getUV atlas faceData.texture (some uv) rawTextures face.1 with
      | .error e => .error e
      | .ok atlasUV =>
          let rotatedUV := applyUVRotation atlasUV (faceData.rotation.getD 0)
          let normal :=
            match rotation with
            | some r => rotateNormal trig faceDef.normal r
            | none => faceDef.normal
          -- the `for i in 0..3` vertex loop, unrolled into list maps
          let newPositions := (List.range 4).map (fun i =>
            vertices.getD (faceDef.verts.getD i 0) (0, 0, 0))
          let newNormals := List.replicate 4 normal
          let newUVs := (List.range 4).map (fun i =>
            (rotatedUV.getD (i * 2) 0, rotatedUV.getD (i * 2 + 1) 0))
          .ok { positions := st.positions ++ newPositions
                normals := st.normals ++ newNormals
                uvs := st.uvs ++ newUVs
                indices := st.indices ++
                  [baseIndex, baseIndex + 1, baseIndex + 2,
                   baseIndex, baseIndex + 2, baseIndex + 3] }

/-- `buildElement` (geometryBuilder.js lines 46–111): skip the element when
`from`, `to` or `faces` is absent; otherwise compute the eight corners,
apply the element rotation, center at 8 and scale, and fold the face map. -/
def buildElement (trig : Trig) (element : Element) (model : Model)
    (atlas : TextureAtlas) (scale : ℚ) (st : MeshSt) : Except String MeshSt :=
  match element.fromV, element.toV, element.faces with
  | some f, some t, some faces =>
      let vertices : List Vec3 :=
        [(f.1, f.2.1, f.2.2), (t.1, f.2.1, f.2.2), (t.1, t.2.1, f.2.2),
         (f.1, t.2.1, f.2.2), (f.1, f.2.1, t.2.2), (t.1, f.2.1, t.2.2),
         (t.1, t.2.1, t.2.2), (f.1, t.2.1, t.2.2)]
      let vertices :=
        match element.rotation with
        | some r => applyRotation trig vertices r
        | none => vertices
      let vertices := vertices.map (fun v =>
        ((v.1 - 8) * scale, (v.2.1 - 8) * scale, (v.2.2 - 8) * scale))
      faces.foldlM
        (buildFace trig f t element.rotation vertices atlas model.rawTextures)
        st
  | _, _, _ => .ok st

/-- Geometry returned by `buildGeometry`, with the index-array width the
builder chose (`Uint32Array` when `indices.length > 65535`, else
`Uint16Array`). -/
structure Geometry where
  positions : List Vec3
  normals : List Vec3
  uvs : List (ℚ × ℚ)
  indices : List Nat
  indicesAreU32 : Bool
deriving DecidableEq

/-- `buildGeometry` (geometryBuilder.js lines 25–41): fold `buildElement`
over the model's elements and package the typed arrays. -/
def buildGeometry (trig : Trig) (model : Model) (atlas : TextureAtlas)
    (scale : ℚ) : Except String Geometry :=
  match model.elements.foldlM
      (fun st e => buildElement trig e model atlas scale st) MeshSt.empty with
  | .error e => .error e
  | .ok st =>
      .ok { positions := st.positions, normals := st.normals, uvs := st.uvs,
            indices := st.indices,
            indicesAreU32 := decide (st.indices.length > 65535) }

/-- Material of the entity emitter's glTF JSON (entityGlbGenerator.js lines
130–140 and 164): full PBR-mask settings, `baseColorTexture` present iff
texture data was supplied. -/
def entityMaterial (hasTexture : Bool) : Material :=
  { metallicFactor := 0
    roughnessFactor := 1
    doubleSided := some true
    alphaMode := some "MASK"
    alphaCutoff := some (1 / 2)
    baseColorTexture := hasTexture }

/-- glTF document built by the entity emitter's `buildGLB`
(entityGlbGenerator.js lines 38–165): no node rotation, `calculateBounds`
bounds, and componentType 5125 exactly when `buildGeometry` chose
`Uint32Array`. -/
def buildGLBDoc (_modelName : String) (geometry : Geometry)
    (hasTexture : Bool) : GltfDoc :=
  { nodeRotation := none
    posBounds := calculateBounds geometry.positions
    vertexCount := geometry.positions.length
    indexCount := geometry.indices.length
    indexComponentType := if geometry.indicesAreU32 then 5125 else 5123
    material := entityMaterial hasTexture
    hasImage := hasTexture }

/-- `generateEntityGLB` (entityGlbGenerator.js lines 16–33): build the
geometry, return `null` for an empty mesh, else emit the GLB document. -/
def generateEntityGLB (trig : Trig) (model : Model) (atlas : TextureAtlas)
    (scale : ℚ) (hasTexture : Bool) : Except String (Option GltfDoc) :=
  match buildGeometry trig model atlas scale with
  | .error e => .error e
  | .ok g =>
      if g.positions.length = 0 then .ok none
      else .ok (some (buildGLBDoc model.name g hasTexture))

/-! ## Helper lemmas: voxel mesh structure -/

/-- The 24 per-corner normals one voxel receives, in emission order (front,
back, top, bottom, right, left faces, four corners each), after the
coordinate conversion of `addVertex`. -/
def normalBlock (cs : CoordSystem) : List Vec3 :=
  match cs with
  | .zUp =>
      [(0, 1, 0), (0, 1, 0), (0, 1, 0), (0, 1, 0),
       (0, -1, 0), (0, -1, 0), (0, -1, 0), (0, -1, 0),
       (0, 0, -1), (0, 0, -1), (0, 0, -1), (0, 0, -1),
       (0, 0, 1), (0, 0, 1), (0, 0, 1), (0, 0, 1),
       (1, 0, 0), (1, 0, 0), (1, 0, 0), (1, 0, 0),
       (-1, 0, 0), (-1, 0, 0), (-1, 0, 0), (-1, 0, 0)]
  | .yUp =>
      [(0, 0, 1), (0, 0, 1), (0, 0, 1), (0, 0, 1),
       (0, 0, -1), (0, 0, -1), (0, 0, -1), (0, 0, -1),
       (0, 1, 0), (0, 1, 0), (0, 1, 0), (0, 1, 0),
       (0, -1, 0), (0, -1, 0), (0, -1, 0), (0, -1, 0),
       (1, 0, 0), (1, 0, 0), (1, 0, 0), (1, 0, 0),
       (-1, 0, 0), (-1, 0, 0), (-1, 0, 0), (-1, 0, 0)]

/-- The six axis directions `±X, ±Y, ±Z`. -/
def axisDirections : List Vec3 :=
  [(1, 0, 0), (-1, 0, 0), (0, 1, 0), (0, -1, 0), (0, 0, 1), (0, 0, -1)]

theorem addPixel_positions_length (cs : CoordSystem) (w h : Nat)
    (a b c d : ℚ) (p : Nat × Nat) (st : MeshSt) :
    (addPixel cs w h a b c d p st).positions.length =
      st.positions.length + 24 := by
  cases cs <;> simp [addPixel, addQuad, addVertex]

theorem addPixel_normals_eq (cs : CoordSystem) (w h : Nat) (a b c d : ℚ)
    (p : Nat × Nat) (st : MeshSt) :
    (addPixel cs w h a b c d p st).normals = st.normals ++ normalBlock cs := by
  cases cs <;> simp [addPixel, addQuad, addVertex, normalBlock]

theorem addPixel_uvs_length (cs : CoordSystem) (w h : Nat) (a b c d : ℚ)
    (p : Nat × Nat) (st : MeshSt) :
    (addPixel cs w h a b c d p st).uvs.length = st.uvs.length + 24 := by
  cases cs <;> simp [addPixel, addQuad, addVertex]

theorem addPixel_indices_length (cs : CoordSystem) (w h : Nat) (a b c d : ℚ)
    (p : Nat × Nat) (st : MeshSt) :
    (addPixel cs w h a b c d p st).indices.length =
      st.indices.length + 36 := by
  cases cs <;> simp [addPixel, addQuad, addVertex]

theorem voxel_foldl_structure (cs : CoordSystem) (w h : Nat) (a b c d : ℚ)
    (ps : List (Nat × Nat)) :
    ∀ st : MeshSt,
      (ps.foldl (fun st p => addPixel cs w h a b c d p st) st).positions.length
          = st.positions.length + 24 * ps.length ∧
      (ps.foldl (fun st p => addPixel cs w h a b c d p st) st).normals
          = st.normals ++ ps.flatMap (fun _ => normalBlock cs) ∧
      (ps.foldl (fun st p => addPixel cs w h a b c d p st) st).uvs.length
          = st.uvs.length + 24 * ps.length ∧
      (ps.foldl (fun st p => addPixel cs w h a b c d p st) st).indices.length
          = st.indices.length + 36 * ps.length := by
  induction ps with
  | nil => intro st; simp
  | cons p ps ih =>
      intro st
      obtain ⟨h1, h2, h3, h4⟩ := ih (addPixel cs w h a b c d p st)
      refine ⟨?_, ?_, ?_, ?_⟩
      · simp only [List.foldl_cons, h1, addPixel_positions_length,
          List.length_cons]
        omega
      · simp only [List.foldl_cons, h2, addPixel_normals_eq,
          List.flatMap_cons, List.append_assoc]
      · simp only [List.foldl_cons, h3, addPixel_uvs_length, List.length_cons]
        omega
      · simp only [List.foldl_cons, h4, addPixel_indices_length,
          List.length_cons]
        omega

/-- The coordinate conversion glbGenerator.js line 79 applies in `'z-up'`
mode: `(x, y, z) ↦ (x, z, -y)`. -/
def swapZY (v : Vec3) : Vec3 := (v.1, v.2.2, -v.2.1)

/-- Apply the z-up conversion to the positions and normals of a mesh
state. -/
def swapSt (st : MeshSt) : MeshSt :=
  ⟨st.positions.map swapZY, st.normals.map swapZY, st.uvs, st.indices⟩

theorem addVertex_swap (x y z nx ny nz u v : ℚ) (st : MeshSt) :
    addVertex .zUp x y z nx ny nz u v (swapSt st) =
      swapSt (addVertex .yUp x y z nx ny nz u v st) := by
  simp [addVertex, swapSt, swapZY]

theorem addQuad_swap (p0 p1 p2 p3 n : Vec3) (t0 t1 t2 t3 : ℚ × ℚ)
    (st : MeshSt) :
    addQuad .zUp p0 p1 p2 p3 n t0 t1 t2 t3 (swapSt st) =
      swapSt (addQuad .yUp p0 p1 p2 p3 n t0 t1 t2 t3 st) := by
  simp [addQuad, addVertex_swap, swapSt, addVertex, swapZY]

theorem addPixel_swap (w h : Nat) (a b c d : ℚ) (p : Nat × Nat)
    (st : MeshSt) :
    addPixel .zUp w h a b c d p (swapSt st) =
      swapSt (addPixel .yUp w h a b c d p st) := by
  simp only [addPixel, addQuad_swap]

theorem voxel_foldl_swap (w h : Nat) (a b c d : ℚ) (ps : List (Nat × Nat)) :
    ∀ st : MeshSt,
      ps.foldl (fun st p => addPixel .zUp w h a b c d p st) (swapSt st) =
        swapSt (ps.foldl (fun st p => addPixel .yUp w h a b c d p st) st) := by
  induction ps with
  | nil => intro st; rfl
  | cons p ps ih =>
      intro st
      simp only [List.foldl_cons, addPixel_swap, ih]

theorem voxelMesh_swap (w h c : Nat) (pixels : List Nat) (scale : ℚ) :
    voxelMesh .zUp w h c pixels scale =
      swapSt (voxelMesh .yUp w h c pixels scale) := by
  simp only [voxelMesh]
  conv_lhs => rw [show MeshSt.empty = swapSt MeshSt.empty from rfl]
  rw [voxel_foldl_swap]

theorem align4_mod (n : Nat) : align4 n % 4 = 0 := by
  simp only [align4]
  omega

theorem le_align4 (n : Nat) : n ≤ align4 n := by
  simp only [align4]
  omega

theorem scenario1_doc (hasTex : Bool) :
    generateGLBFromPixels 1 1 4 [255, 255, 255, 255] 1 .zUp hasTex =
      some { nodeRotation := some [quatX, 0, 0, quatW]
             posBounds := some ((-(1 / 2), -(1 / 4), -(1 / 2)),
               ((1 / 2 : ℚ), (1 / 4 : ℚ), (1 / 2 : ℚ)))
             vertexCount := 24
             indexCount := 36
             indexComponentType := 5123
             material := ⟨0, 1, none, none, none, hasTex⟩
             hasImage := hasTex } := by
  have hop : opaquePixels 1 1 4 [255, 255, 255, 255] = [(0, 0)] := by decide
  norm_num [generateGLBFromPixels, voxelMesh, hop, addPixel, addQuad,
    addVertex, calculateBounds, MeshSt.empty, min_def, max_def]

/-! ## Claim theorems -/

/-- C1, amended: in z-up mode `generateGLBFromPixels` does **not** emit
positions and normals unmodified — `addVertex` converts them by
`(x, y, z) ↦ (x, z, -y)` (so the 1×1-pixel scenario's bounds are
min `(-0.5, -0.25, -0.5)`, max `(0.5, 0.25, 0.5)`) — while the single scene
node carries the rotation quaternion `(0.7071067811865475, 0, 0,
0.7071067811865476)` (whose nonzero components bracket `√2/2`), and in y-up
mode no node rotation is present. -/
theorem c1_zup_conversion_and_rotation (w h : Nat) (pixels : List Nat)
    (scale : ℚ) (hasTex : Bool)
    (hne : (opaquePixels w h 4 pixels).isEmpty = false) :
    (generateGLBFromPixels w h 4 pixels scale .zUp hasTex).map
        GltfDoc.nodeRotation = some (some [quatX, 0, 0, quatW]) ∧
    (generateGLBFromPixels w h 4 pixels scale .yUp hasTex).map
        GltfDoc.nodeRotation = some none ∧
    voxelMesh .zUp w h 4 pixels scale =
      swapSt (voxelMesh .yUp w h 4 pixels scale) ∧
    quatX ^ 2 < 1 / 2 ∧ (1 / 2 : ℚ) < quatW ^ 2 ∧
    (generateGLBFromPixels 1 1 4 [255, 255, 255, 255] 1 .zUp false).map
        GltfDoc.posBounds =
      some (some ((-(1 / 2), -(1 / 4), -(1 / 2)),
        ((1 / 2 : ℚ), (1 / 4 : ℚ), (1 / 2 : ℚ)))) := by
  refine ⟨?_, ?_, voxelMesh_swap w h 4 pixels scale,
    by norm_num [quatX], by norm_num [quatW], by simp [scenario1_doc]⟩
  · simp [generateGLBFromPixels, hne]
  · simp [generateGLBFromPixels, hne]

/-- Witness for C1 at the single-opaque-pixel scenario. -/
theorem c1_witness :
    (generateGLBFromPixels 1 1 4 [255, 255, 255, 255] 1 .zUp false).map
        GltfDoc.nodeRotation = some (some [quatX, 0, 0, quatW]) :=
  (c1_zup_conversion_and_rotation 1 1 [255, 255, 255, 255] 1 false
    (by decide)).1

/-- C1, counterexample: for the 1×1 opaque pixel at scale 1 in z-up mode the
emitted position bounds are min `(-0.5, -0.25, -0.5)`,
max `(0.5, 0.25, 0.5)` — not the claimed min `(-0.5, -0.5, -0.25)`,
max `(0.5, 0.5, 0.25)` — because positions are converted, not emitted
unmodified. -/
theorem c1_counterexample :
    (generateGLBFromPixels 1 1 4 [255, 255, 255, 255] 1 .zUp false).map
        GltfDoc.posBounds =
      some (some ((-(1 / 2), -(1 / 4), -(1 / 2)),
        ((1 / 2 : ℚ), (1 / 4 : ℚ), (1 / 2 : ℚ)))) ∧
    (generateGLBFromPixels 1 1 4 [255, 255, 255, 255] 1 .zUp false).map
        GltfDoc.posBounds ≠
      some (some ((-(1 / 2), -(1 / 2), -(1 / 4)),
        ((1 / 2 : ℚ), (1 / 2 : ℚ), (1 / 4 : ℚ)))) := by
  constructor
  · simp [scenario1_doc]
  · norm_num [scenario1_doc]

/-- C2: for every RGBA image (channels = 4, alpha threshold 128) the voxel
mesh carries exactly 24 vertices, 24 normals, 24 UVs and 36 indices per
opaque pixel — 24·n and 36·n in total with no inter-voxel culling — and each
pixel's 24 normals are the six axis directions, four corners per face. -/
theorem c2_voxel_mesh_counts (cs : CoordSystem) (w h : Nat)
    (pixels : List Nat) (scale : ℚ) :
    (voxelMesh cs w h 4 pixels scale).positions.length =
      24 * (opaquePixels w h 4 pixels).length ∧
    (voxelMesh cs w h 4 pixels scale).normals.length =
      24 * (opaquePixels w h 4 pixels).length ∧
    (voxelMesh cs w h 4 pixels scale).uvs.length =
      24 * (opaquePixels w h 4 pixels).length ∧
    (voxelMesh cs w h 4 pixels scale).indices.length =
      36 * (opaquePixels w h 4 pixels).length ∧
    (voxelMesh cs w h 4 pixels scale).normals =
      (opaquePixels w h 4 pixels).flatMap (fun _ => normalBlock cs) ∧
    (∀ v ∈ normalBlock cs, v ∈ axisDirections) ∧
    (∀ v ∈ axisDirections, v ∈ normalBlock cs) := by
  obtain ⟨h1, h2, h3, h4⟩ :=
    voxel_foldl_structure cs w h (scale / ((max w h : Nat) : ℚ))
      ((w : ℚ) * (scale / ((max w h : Nat) : ℚ)) / 2)
      ((h : ℚ) * (scale / ((max w h : Nat) : ℚ)) / 2)
      ((scale / ((max w h : Nat) : ℚ)) * (1 / 2))
      (opaquePixels w h 4 pixels) MeshSt.empty
  have hlen : ((opaquePixels w h 4 pixels).flatMap
      (fun _ => normalBlock cs)).length =
      24 * (opaquePixels w h 4 pixels).length := by
    have hnb : (normalBlock cs).length = 24 := by cases cs <;> rfl
    rw [List.length_flatMap]
    have hc : (List.length ∘ fun _ : Nat × Nat => normalBlock cs) =
        fun _ => 24 := by
      funext x
      simp [hnb]
    rw [hc, List.map_const', List.sum_replicate]
    simp [Nat.mul_comm]
  refine ⟨?_, ?_, ?_, ?_, ?_, ?_, ?_⟩
  · simp only [voxelMesh]
    rw [h1]
    simp [MeshSt.empty, Nat.mul_comm]
  · simp only [voxelMesh]
    rw [h2]
    simp [MeshSt.empty, hlen]
  · simp only [voxelMesh]
    rw [h3]
    simp [MeshSt.empty, Nat.mul_comm]
  · simp only [voxelMesh]
    rw [h4]
    simp [MeshSt.empty, Nat.mul_comm]
  · simp only [voxelMesh]
    rw [h2]
    simp [MeshSt.empty]
  · cases cs <;>
      · intro v hv
        simp only [normalBlock] at hv
        fin_cases hv <;> norm_num [axisDirections]
  · cases cs <;>
      · intro v hv
        simp only [axisDirections] at hv
        fin_cases hv <;> norm_num [normalBlock]

/-- C3: every GLB byte stream framed by `buildGLB` (the framing code of both
emitters is identical) starts with magic `0x46546C67` and version 2, records
as total length exactly its own length, which is a multiple of 4, declares
4-multiple chunk lengths for the JSON chunk (type `"JSON"`, space padding)
and the BIN chunk (type `"BIN\0"`, zero padding). -/
theorem c3_glb_framing (jsonBuffer binBuffer : List Nat) :
    buildGLB jsonBuffer binBuffer =
      [0x67, 0x6C, 0x54, 0x46] ++ [2, 0, 0, 0] ++
        writeUInt32LE (buildGLB jsonBuffer binBuffer).length ++
        writeUInt32LE (align4 jsonBuffer.length) ++ [0x4A, 0x53, 0x4F, 0x4E] ++
        jsonBuffer ++
        List.replicate (align4 jsonBuffer.length - jsonBuffer.length) 0x20 ++
        writeUInt32LE (align4 binBuffer.length) ++ [0x42, 0x49, 0x4E, 0x00] ++
        binBuffer ++
        List.replicate (align4 binBuffer.length - binBuffer.length) 0x00 ∧
    (buildGLB jsonBuffer binBuffer).length =
      12 + 8 + align4 jsonBuffer.length + 8 + align4 binBuffer.length ∧
    (buildGLB jsonBuffer binBuffer).length % 4 = 0 ∧
    align4 jsonBuffer.length % 4 = 0 ∧
    align4 binBuffer.length % 4 = 0 ∧
    jsonBuffer.length ≤ align4 jsonBuffer.length ∧
    binBuffer.length ≤ align4 binBuffer.length := by
  have hlen : (buildGLB jsonBuffer binBuffer).length =
      12 + 8 + align4 jsonBuffer.length + 8 + align4 binBuffer.length := by
    have hj := le_align4 jsonBuffer.length
    have hb := le_align4 binBuffer.length
    simp [buildGLB, writeUInt32LE]
    omega
  refine ⟨?_, hlen, ?_, align4_mod _, align4_mod _, le_align4 _, le_align4 _⟩
  · rw [hlen]
    rfl
  · have hj := align4_mod jsonBuffer.length
    have hb := align4_mod binBuffer.length
    omega

/-- C7: the atlas-side alias resolution caps its depth at 10 and resolves a
cyclic map to `null`; the loader-side `resolveTextureKey` has **no** depth
cap — on the cyclic map `a → #b, b → #a` the recursion never completes at any
call-stack depth (the comment in the source promises a limit the code does
not implement). -/
theorem c7_alias_cycle_divergence :
    (∀ fuel, resolveTextureKeyFuel [("a", "#b"), ("b", "#a")] fuel
      (some "#a") = none) ∧
    resolveTextureChain [("a", "#b"), ("b", "#a")] "a" 0 = none := by
  constructor
  · have key : ∀ fuel,
        resolveTextureKeyFuel [("a", "#b"), ("b", "#a")] fuel (some "#a") =
          none ∧
        resolveTextureKeyFuel [("a", "#b"), ("b", "#a")] fuel (some "#b") =
          none := by
      intro fuel
      induction fuel with
      | zero => exact ⟨rfl, rfl⟩
      | succ n ih =>
          refine ⟨?_, ?_⟩
          · have hstep : resolveTextureKeyFuel [("a", "#b"), ("b", "#a")]
                (n + 1) (some "#a") =
                resolveTextureKeyFuel [("a", "#b"), ("b", "#a")] n
                  (some "#b") := rfl
            rw [hstep]
            exact ih.2
          · have hstep : resolveTextureKeyFuel [("a", "#b"), ("b", "#a")]
                (n + 1) (some "#b") =
                resolveTextureKeyFuel [("a", "#b"), ("b", "#a")] n
                  (some "#a") := rfl
            rw [hstep]
            exact ih.1
    exact fun fuel => (key fuel).1
  · have ha : jsDropOne "#a" = "a" := rfl
    have hb : jsDropOne "#b" = "b" := rfl
    simp [resolveTextureChain, List.lookup, jsStartsWith, List.isPrefixOf,
      ha, hb]

/-- Fold of `buildFace` over face entries whose names are all unknown leaves
the mesh state untouched and raises no error. -/
theorem foldlM_buildFace_unknown (trig : Trig) (f t : Vec3)
    (rot : Option ElementRotation) (verts : List Vec3) (atlas : TextureAtlas)
    (raw : List (String × String)) (fs : List (String × FaceData)) :
    ∀ st : MeshSt, (∀ p ∈ fs, FACE_DEFINITIONS p.1 = none) →
      fs.foldlM (buildFace trig f t rot verts atlas raw) st = .ok st := by
  induction fs with
  | nil => intro st _; rfl
  | cons p ps ih =>
      intro st hall
      have hp : FACE_DEFINITIONS p.1 = none := hall p (List.mem_cons_self p ps)
      have hstep : buildFace trig f t rot verts atlas raw st p = .ok st := by
        simp [buildFace, hp]
      simp only [List.foldlM, hstep, Except.bind]
      exact ih st (fun q hq => hall q (List.mem_cons_of_mem p hq))

/-- C10: `buildElement` is total over malformed elements at its interface: an
element missing `from`, `to` or `faces` contributes nothing and raises no
error, and likewise face entries whose names are not among the six known
face names contribute nothing and raise no error. -/
theorem c10_malformed_elements_skipped (trig : Trig) (e : Element)
    (model : Model) (atlas : TextureAtlas) (scale : ℚ) (st : MeshSt) :
    (e.fromV = none ∨ e.toV = none ∨ e.faces = none →
      buildElement trig e model atlas scale st = .ok st) ∧
    (∀ fs, e.faces = some fs → (∀ p ∈ fs, FACE_DEFINITIONS p.1 = none) →
      buildElement trig e model atlas scale st = .ok st) := by
  obtain ⟨f, t, r, fc⟩ := e
  constructor
  · intro h
    rcases h with h | h | h
    · subst h
      cases t <;> cases fc <;> rfl
    · subst h
      cases f <;> cases fc <;> rfl
    · subst h
      cases f <;> cases t <;> rfl
  · intro fs hfc hall
    subst hfc
    cases f with
    | none => rfl
    | some fv =>
        cases t with
        | none => rfl
        | some tv =>
            simp only [buildElement]
            exact foldlM_buildFace_unknown trig fv tv r _ atlas
              model.rawTextures fs st hall

/-- Witness for C10: a from-less element and an element whose single face
has an unknown name are both skipped without error. -/
theorem c10_witness :
    buildElement trigTrivial ⟨none, some (0, 0, 0), none, none⟩
      ⟨"m", [], []⟩ ⟨[], 16, 16, 16⟩ (1 / 16) MeshSt.empty =
      .ok MeshSt.empty ∧
    buildElement trigTrivial
      ⟨some (0, 0, 0), some (16, 16, 16), none, some [("noface", ⟨none, none,
        none⟩)]⟩ ⟨"m", [], []⟩ ⟨[], 16, 16, 16⟩ (1 / 16) MeshSt.empty =
      .ok MeshSt.empty := by
  constructor
  · exact (c10_malformed_elements_skipped trigTrivial _ _ _ _ _).1
      (Or.inl rfl)
  · exact (c10_malformed_elements_skipped trigTrivial _ _ _ _ _).2 _ rfl
      (by intro p hp; fin_cases hp; rfl)

/-- A model with a single full-cube element whose north face has no texture
reference, for concrete entity-emitter evaluations. -/
def modelNoTex : Model :=
  ⟨"m", [⟨some (0, 0, 0), some (16, 16, 16), none,
    some [("north", ⟨none, none, none⟩)]⟩], []⟩

/-- Concrete evaluation of the entity emitter on `modelNoTex` with the
zero-texture placeholder atlas. -/
theorem entity_noTex_doc :
    generateEntityGLB trigTrivial modelNoTex (buildAtlas []) (1 / 16) true =
      .ok (some { nodeRotation := none
                  posBounds := some ((-(1 / 2), -(1 / 2), -(1 / 2)),
                    ((1 / 2 : ℚ), (1 / 2 : ℚ), -(1 / 2 : ℚ)))
                  vertexCount := 4
                  indexCount := 6
                  indexComponentType := 5123
                  material := ⟨0, 1, some true, some "MASK", some (1 / 2),
                    true⟩
                  hasImage := true }) := by
  have h1 : ("north" = "up") = False := by simp
  have h2 : ("north" = "down") = False := by simp
  have hr4 : List.range 4 = [0, 1, 2, 3] := rfl
  norm_num [generateEntityGLB, buildGeometry, buildElement, buildFace, getUV,
    resolveRefPath, getTextureByRef, getTextureByRefFind, buildAtlas,
    loadTexturesSize, FACE_DEFINITIONS, autoGenerateUV, applyUVRotation,
    calculateBounds, MeshSt.empty, min_def, max_def, buildGLBDoc,
    entityMaterial, modelNoTex, List.foldlM, h1, h2, hr4, List.getD]

/-- C8, amended: the cuboid (entity) emitter's material always has
`metallicFactor = 0`, `roughnessFactor = 1`, `doubleSided = true`,
`alphaMode = "MASK"`, `alphaCutoff = 0.5`, with `baseColorTexture` present
iff texture data was supplied; the voxel emitter's material has
`metallicFactor = 0` and `roughnessFactor = 1` and the same
`baseColorTexture` rule but **omits** `doubleSided`, `alphaMode` and
`alphaCutoff`. -/
theorem c8_materials (trig : Trig) (model : Model) (atlas : TextureAtlas)
    (scale : ℚ) (hasTexE hasTexV : Bool) (d vd : GltfDoc)
    (w h : Nat) (pixels : List Nat) (vscale : ℚ)
    (hE : generateEntityGLB trig model atlas scale hasTexE = .ok (some d))
    (hV : generateGLBFromPixels w h 4 pixels vscale .zUp hasTexV = some vd) :
    d.material = ⟨0, 1, some true, some "MASK", some (1 / 2), hasTexE⟩ ∧
    vd.material = ⟨0, 1, none, none, none, hasTexV⟩ := by
  constructor
  · cases hg : buildGeometry trig model atlas scale with
    | error e => simp [generateEntityGLB, hg] at hE
    | ok g =>
        by_cases hz : g.positions.length = 0
        · simp [generateEntityGLB, hg, hz] at hE
        · simp only [generateEntityGLB, hg] at hE
          rw [if_neg hz] at hE
          have hd : buildGLBDoc model.name g hasTexE = d := by
            simpa using hE
          rw [← hd]
          rfl
  · by_cases hop : (opaquePixels w h 4 pixels).isEmpty = true
    · simp [generateGLBFromPixels, hop] at hV
    · simp only [generateGLBFromPixels] at hV
      rw [if_neg hop] at hV
      have hd := Option.some.inj hV
      rw [← hd]

/-- Witness for C8 at the concrete entity model and the single-pixel voxel
input, both with texture data supplied. -/
theorem c8_witness :
    (GltfDoc.mk none (some ((-(1 / 2), -(1 / 2), -(1 / 2)),
        ((1 / 2 : ℚ), (1 / 2 : ℚ), -(1 / 2 : ℚ)))) 4 6 5123
        ⟨0, 1, some true, some "MASK", some (1 / 2), true⟩ true).material =
      ⟨0, 1, some true, some "MASK", some (1 / 2), true⟩ ∧
    (GltfDoc.mk (some [quatX, 0, 0, quatW])
        (some ((-(1 / 2), -(1 / 4), -(1 / 2)),
          ((1 / 2 : ℚ), (1 / 4 : ℚ), (1 / 2 : ℚ)))) 24 36 5123
        ⟨0, 1, none, none, none, true⟩ true).material =
      ⟨0, 1, none, none, none, true⟩ :=
  c8_materials trigTrivial modelNoTex (buildAtlas []) (1 / 16) true true _ _
    1 1 [255, 255, 255, 255] 1 entity_noTex_doc (scenario1_doc true)

/-- C8, counterexample: the voxel emitter's material (here at the 1×1 opaque
pixel with texture data supplied) carries no `doubleSided` key at all, so
the claim that both emitters always emit `doubleSided = true` fails. -/
theorem c8_counterexample :
    (generateGLBFromPixels 1 1 4 [255, 255, 255, 255] 1 .zUp true).map
      (fun d => d.material.doubleSided) = some none ∧
    (some none : Option (Option Bool)) ≠ some (some true) := by
  refine ⟨by simp [scenario1_doc], by decide⟩

theorem foldlM_ok_cons {α : Type} (g : MeshSt → α → Except String MeshSt)
    (x : α) (xs : List α) (st st' : MeshSt)
    (h : List.foldlM g st (x :: xs) = Except.ok st') :
    ∃ s, g st x = Except.ok s ∧ List.foldlM g s xs = Except.ok st' := by
  simp only [List.foldlM] at h
  cases hf : g st x with
  | error e => rw [hf] at h; simp [Bind.bind, Except.bind] at h
  | ok s => rw [hf] at h; exact ⟨s, rfl, by simpa [Bind.bind, Except.bind] using h⟩

theorem buildFace_ok_counts (trig : Trig) (f t : Vec3)
    (rot : Option ElementRotation) (verts : List Vec3) (atlas : TextureAtlas)
    (raw : List (String × String)) (st st' : MeshSt)
    (p : String × FaceData)
    (h : buildFace trig f t rot verts atlas raw st p = .ok st') :
    st'.positions.length = st.positions.length +
      (if (FACE_DEFINITIONS p.1).isSome then 4 else 0) ∧
    st'.normals.length = st.normals.length +
      (if (FACE_DEFINITIONS p.1).isSome then 4 else 0) ∧
    st'.uvs.length = st.uvs.length +
      (if (FACE_DEFINITIONS p.1).isSome then 4 else 0) ∧
    st'.indices.length = st.indices.length +
      (if (FACE_DEFINITIONS p.1).isSome then 6 else 0) := by
  cases hF : FACE_DEFINITIONS p.1 with
  | none =>
      simp only [buildFace, hF] at h
      cases h
      simp [hF]
  | some fd =>
      simp only [buildFace, hF] at h
      cases hu : getUV atlas p.2.texture
          (some (p.2.uv.getD (autoGenerateUV f t p.1))) raw p.1 with
      | error e => rw [hu] at h; cases h
      | ok q =>
          rw [hu] at h
          cases h
          simp [hF]
def elementKnownFaces (e : Element) : Nat :=
  match e.fromV, e.toV, e.faces with
  | some _, some _, some fs =>
      fs.countP (fun p => (FACE_DEFINITIONS p.1).isSome)
  | _, _, _ => 0

theorem foldlM_buildFace_counts (trig : Trig) (f t : Vec3)
    (rot : Option ElementRotation) (verts : List Vec3) (atlas : TextureAtlas)
    (raw : List (String × String)) (fs : List (String × FaceData)) :
    ∀ st st' : MeshSt,
      fs.foldlM (buildFace trig f t rot verts atlas raw) st = .ok st' →
      st'.positions.length = st.positions.length +
        4 * fs.countP (fun p => (FACE_DEFINITIONS p.1).isSome) ∧
      st'.normals.length = st.normals.length +
        4 * fs.countP (fun p => (FACE_DEFINITIONS p.1).isSome) ∧
      st'.uvs.length = st.uvs.length +
        4 * fs.countP (fun p => (FACE_DEFINITIONS p.1).isSome) ∧
      st'.indices.length = st.indices.length +
        6 * fs.countP (fun p => (FACE_DEFINITIONS p.1).isSome) := by
  induction fs with
  | nil =>
      intro st st' h
      cases h
      simp
  | cons p ps ih =>
      intro st st' h
      obtain ⟨s, hs, hrest⟩ := foldlM_ok_cons _ p ps st st' h
      obtain ⟨a1, a2, a3, a4⟩ := buildFace_ok_counts trig f t rot verts atlas
        raw st s p hs
      obtain ⟨b1, b2, b3, b4⟩ := ih s st' hrest
      rw [List.countP_cons]
      refine ⟨?_, ?_, ?_, ?_⟩ <;>
        · first
          | (rw [b1, a1]) | (rw [b2, a2]) | (rw [b3, a3]) | (rw [b4, a4])
          by_cases hP : (FACE_DEFINITIONS p.1).isSome <;> simp [hP] <;> ring

theorem buildElement_ok_counts (trig : Trig) (e : Element) (model : Model)
    (atlas : TextureAtlas) (scale : ℚ) (st st' : MeshSt)
    (h : buildElement trig e model atlas scale st = .ok st') :
    st'.positions.length = st.positions.length + 4 * elementKnownFaces e ∧
    st'.normals.length = st.normals.length + 4 * elementKnownFaces e ∧
    st'.uvs.length = st.uvs.length + 4 * elementKnownFaces e ∧
    st'.indices.length = st.indices.length + 6 * elementKnownFaces e := by
  obtain ⟨f, t, r, fc⟩ := e
  cases f with
  | none => cases h; simp [elementKnownFaces]
  | some fv =>
      cases t with
      | none => cases h; simp [elementKnownFaces]
      | some tv =>
          cases fc with
          | none => cases h; simp [elementKnownFaces]
          | some fs =>
              simp only [buildElement] at h
              have := foldlM_buildFace_counts trig fv tv r _ atlas
                model.rawTextures fs st st' h
              simpa [elementKnownFaces] using this
theorem getTextureByRef_emptyAtlas (ref : Option String) :
    getTextureByRef (buildAtlas []) ref = .ok none := rfl

theorem getUV_texNone_ok (uvOpt : Option (ℚ × ℚ × ℚ × ℚ))
    (raw : List (String × String)) (fn : String) :
    ∃ q, getUV (buildAtlas []) none uvOpt raw fn = .ok q := by
  simp only [getUV, resolveRefPath, getTextureByRef_emptyAtlas]
  split_ifs <;> exact ⟨_, rfl⟩

theorem buildFace_texNone_ok (trig : Trig) (f t : Vec3)
    (rot : Option ElementRotation) (verts : List Vec3)
    (raw : List (String × String)) (st : MeshSt) (p : String × FaceData)
    (hp : p.2.texture = none) :
    ∃ st₁, buildFace trig f t rot verts (buildAtlas []) raw st p = .ok st₁ := by
  cases hF : FACE_DEFINITIONS p.1 with
  | none => exact ⟨st, by simp [buildFace, hF]⟩
  | some fd =>
      obtain ⟨q, hq⟩ := getUV_texNone_ok
        (some (p.2.uv.getD (autoGenerateUV f t p.1))) raw p.1
      simp only [buildFace, hF, hp, hq]
      exact ⟨_, rfl⟩

theorem foldlM_buildFace_texNone_ok (trig : Trig) (f t : Vec3)
    (rot : Option ElementRotation) (verts : List Vec3)
    (raw : List (String × String)) (fs : List (String × FaceData)) :
    ∀ st : MeshSt, (∀ p ∈ fs, p.2.texture = none) →
      ∃ st', fs.foldlM (buildFace trig f t rot verts (buildAtlas []) raw) st =
        .ok st' := by
  induction fs with
  | nil => intro st _; exact ⟨st, rfl⟩
  | cons p ps ih =>
      intro st hall
      obtain ⟨st₁, h₁⟩ := buildFace_texNone_ok trig f t rot verts raw st p
        (hall p (List.mem_cons_self p ps))
      obtain ⟨st', h'⟩ := ih st₁ (fun q hq => hall q (List.mem_cons_of_mem p hq))
      exact ⟨st', by simp only [List.foldlM, h₁, Bind.bind, Except.bind]; exact h'⟩

/-- Elements whose defined faces all lack a texture reference. -/
def facesTexNone (e : Element) : Prop :=
  ∀ fs, e.faces = some fs → ∀ p ∈ fs, p.2.texture = none

theorem buildElement_texNone_ok (trig : Trig) (e : Element) (model : Model)
    (scale : ℚ) (st : MeshSt) (he : facesTexNone e) :
    ∃ st', buildElement trig e model (buildAtlas []) scale st = .ok st' := by
  obtain ⟨f, t, r, fc⟩ := e
  cases f with
  | none => exact ⟨st, rfl⟩
  | some fv =>
      cases t with
      | none => exact ⟨st, rfl⟩
      | some tv =>
          cases fc with
          | none => exact ⟨st, rfl⟩
          | some fs =>
              obtain ⟨st', h⟩ := foldlM_buildFace_texNone_ok trig fv tv r _
                model.rawTextures fs st (he fs rfl)
              exact ⟨st', h⟩
/-- A full-cube element with all six faces defined and no texture refs. -/
def sixFaceElement : Element :=
  ⟨some (0, 0, 0), some (16, 16, 16), none,
   some [("north", ⟨none, none, none⟩), ("south", ⟨none, none, none⟩),
         ("east", ⟨none, none, none⟩), ("west", ⟨none, none, none⟩),
         ("up", ⟨none, none, none⟩), ("down", ⟨none, none, none⟩)]⟩

/-- 2000 copies of the six-face cube: 48000 vertices but 72000 indices. -/
def modelC9 : Model := ⟨"m", List.replicate 2000 sixFaceElement, []⟩

theorem sixFaceElement_knownFaces : elementKnownFaces sixFaceElement = 6 := by
  simp [elementKnownFaces, sixFaceElement, FACE_DEFINITIONS, List.countP,
    List.countP.go]

theorem sixFaceElement_texNone : facesTexNone sixFaceElement := by
  intro fs hfs p hp
  simp only [sixFaceElement] at hfs
  cases hfs
  fin_cases hp <;> rfl

theorem c9_fold (n : Nat) :
    ∀ st : MeshSt, ∃ st',
      (List.replicate n sixFaceElement).foldlM
        (fun st e => buildElement trigTrivial e modelC9 (buildAtlas [])
          (1 / 16) st) st = .ok st' ∧
      st'.positions.length = st.positions.length + 24 * n ∧
      st'.indices.length = st.indices.length + 36 * n := by
  induction n with
  | zero => intro st; exact ⟨st, rfl, by simp, by simp⟩
  | succ n ih =>
      intro st
      obtain ⟨st₁, h₁⟩ := buildElement_texNone_ok trigTrivial sixFaceElement
        modelC9 (1 / 16) st sixFaceElement_texNone
      obtain ⟨hp, _, _, hi⟩ := buildElement_ok_counts trigTrivial
        sixFaceElement modelC9 (buildAtlas []) (1 / 16) st st₁ h₁
      obtain ⟨st', h', hp', hi'⟩ := ih st₁
      refine ⟨st', ?_, ?_, ?_⟩
      · rw [List.replicate_succ]
        simp only [List.foldlM, h₁, Bind.bind, Except.bind]
        exact h'
      · rw [hp', hp, sixFaceElement_knownFaces]
        ring
      · rw [hi', hi, sixFaceElement_knownFaces]
        ring
/-- `Except`-level projections used to state closed facts about
`buildGeometry` results without binders. -/
def geomVertexCount (r : Except String Geometry) : Nat :=
  match r with
  | .ok g => g.positions.length
  | .error _ => 0

def geomIndexCount (r : Except String Geometry) : Nat :=
  match r with
  | .ok g => g.indices.length
  | .error _ => 0

def geomIndicesAreU32 (r : Except String Geometry) : Bool :=
  match r with
  | .ok g => g.indicesAreU32
  | .error _ => false

def geomIsOk (r : Except String Geometry) : Bool :=
  match r with
  | .ok _ => true
  | .error _ => false

/-- C9, counterexample: 2000 six-face elements build a mesh with 48000
vertices (≤ 65535) yet 72000 indices, so the builder stores the indices as
u32 — the u16/u32 choice follows the index count, not the vertex count the
claim states. -/
theorem c9_counterexample :
    geomIsOk (buildGeometry trigTrivial modelC9 (buildAtlas []) (1 / 16)) =
      true ∧
    geomVertexCount (buildGeometry trigTrivial modelC9 (buildAtlas [])
      (1 / 16)) = 48000 ∧
    48000 ≤ 65535 ∧
    geomIndexCount (buildGeometry trigTrivial modelC9 (buildAtlas [])
      (1 / 16)) = 72000 ∧
    geomIndicesAreU32 (buildGeometry trigTrivial modelC9 (buildAtlas [])
      (1 / 16)) = true := by
  obtain ⟨st', hfold, hp, hi⟩ := c9_fold 2000 MeshSt.empty
  have hfold' : modelC9.elements.foldlM
      (fun st e => buildElement trigTrivial e modelC9 (buildAtlas [])
        (1 / 16) st) MeshSt.empty = .ok st' := hfold
  have hp' : st'.positions.length = 48000 := by
    simpa [MeshSt.empty] using hp
  have hi' : st'.indices.length = 72000 := by
    simpa [MeshSt.empty] using hi
  have hB : buildGeometry trigTrivial modelC9 (buildAtlas []) (1 / 16) =
      .ok ⟨st'.positions, st'.normals, st'.uvs, st'.indices,
        decide (st'.indices.length > 65535)⟩ := by
    simp only [buildGeometry]
    rw [hfold']
  refine ⟨?_, ?_, by norm_num, ?_, ?_⟩
  · rw [hB]
    rfl
  · rw [hB]
    exact hp'
  · rw [hB]
    exact hi'
  · rw [hB, hi']
    rfl
/-- C9, amended: both builders store mesh indices as u16 (componentType 5123)
when the **index count** is at most 65535 and as u32 (componentType 5125)
otherwise; for the voxel builder the index count is 36 per opaque pixel
against 24 vertices. -/
theorem c9_index_width (trig : Trig) (model : Model) (atlas : TextureAtlas)
    (scale : ℚ) (g : Geometry) (name : String) (hasTex : Bool)
    (w h : Nat) (pixels : List Nat) (vscale : ℚ) (cs : CoordSystem)
    (hasTexV : Bool) (vd : GltfDoc)
    (hg : buildGeometry trig model atlas scale = .ok g)
    (hv : generateGLBFromPixels w h 4 pixels vscale cs hasTexV = some vd) :
    ((buildGLBDoc name g hasTex).indexComponentType = 5123 ↔
      g.indices.length ≤ 65535) ∧
    ((buildGLBDoc name g hasTex).indexComponentType = 5125 ↔
      g.indices.length > 65535) ∧
    (vd.indexComponentType = 5123 ↔ vd.indexCount ≤ 65535) ∧
    (vd.indexComponentType = 5125 ↔ vd.indexCount > 65535) ∧
    vd.indexCount = 36 * (opaquePixels w h 4 pixels).length ∧
    vd.vertexCount = 24 * (opaquePixels w h 4 pixels).length := by
  have hu32 : g.indicesAreU32 = decide (g.indices.length > 65535) := by
    simp only [buildGeometry] at hg
    cases hfold : model.elements.foldlM
        (fun st e => buildElement trig e model atlas scale st)
        MeshSt.empty with
    | error e => rw [hfold] at hg; cases hg
    | ok st =>
        rw [hfold] at hg
        cases hg
        rfl
  have hmesh := voxel_foldl_structure cs w h
    (vscale / ((max w h : Nat) : ℚ))
    ((w : ℚ) * (vscale / ((max w h : Nat) : ℚ)) / 2)
    ((h : ℚ) * (vscale / ((max w h : Nat) : ℚ)) / 2)
    ((vscale / ((max w h : Nat) : ℚ)) * (1 / 2))
    (opaquePixels w h 4 pixels) MeshSt.empty
  have hvm : (voxelMesh cs w h 4 pixels vscale).indices.length =
      36 * (opaquePixels w h 4 pixels).length := by
    simp only [voxelMesh]
    rw [hmesh.2.2.2]
    simp [MeshSt.empty, Nat.mul_comm]
  have hvp : (voxelMesh cs w h 4 pixels vscale).positions.length =
      24 * (opaquePixels w h 4 pixels).length := by
    simp only [voxelMesh]
    rw [hmesh.1]
    simp [MeshSt.empty, Nat.mul_comm]
  have hvd : vd.indexCount = (voxelMesh cs w h 4 pixels vscale).indices.length
      ∧ vd.vertexCount =
        (voxelMesh cs w h 4 pixels vscale).positions.length ∧
      vd.indexComponentType = (if (voxelMesh cs w h 4 pixels
        vscale).indices.length > 65535 then 5125 else 5123) := by
    by_cases hop : (opaquePixels w h 4 pixels).isEmpty = true
    · simp [generateGLBFromPixels, hop] at hv
    · simp only [generateGLBFromPixels] at hv
      rw [if_neg hop] at hv
      have hd := Option.some.inj hv
      rw [← hd]
      exact ⟨rfl, rfl, rfl⟩
  refine ⟨?_, ?_, ?_, ?_, ?_, ?_⟩
  · rw [buildGLBDoc]
    by_cases hl : g.indices.length > 65535 <;> simp [hu32, hl] <;> omega
  · rw [buildGLBDoc]
    by_cases hl : g.indices.length > 65535 <;> simp [hu32, hl]
  · rw [hvd.2.2, hvd.1]
    by_cases hl : (voxelMesh cs w h 4 pixels vscale).indices.length > 65535 <;>
      simp [hl] <;> omega
  · rw [hvd.2.2, hvd.1]
    by_cases hl : (voxelMesh cs w h 4 pixels vscale).indices.length > 65535 <;>
      simp [hl]
  · rw [hvd.1, hvm]
  · rw [hvd.2.1, hvp]
/-- Witness for C9 at an empty model and the single-pixel voxel input. -/
theorem c9_witness :
    ((buildGLBDoc "m" ⟨[], [], [], [], false⟩ false).indexComponentType =
        5123 ↔ (⟨[], [], [], [], false⟩ : Geometry).indices.length ≤ 65535) ∧
    ((buildGLBDoc "m" ⟨[], [], [], [], false⟩ false).indexComponentType =
        5125 ↔ (⟨[], [], [], [], false⟩ : Geometry).indices.length > 65535) ∧
    ((GltfDoc.mk (some [quatX, 0, 0, quatW])
        (some ((-(1 / 2), -(1 / 4), -(1 / 2)),
          ((1 / 2 : ℚ), (1 / 4 : ℚ), (1 / 2 : ℚ)))) 24 36 5123
        ⟨0, 1, none, none, none, false⟩ false).indexComponentType = 5123 ↔
      (GltfDoc.mk (some [quatX, 0, 0, quatW])
        (some ((-(1 / 2), -(1 / 4), -(1 / 2)),
          ((1 / 2 : ℚ), (1 / 4 : ℚ), (1 / 2 : ℚ)))) 24 36 5123
        ⟨0, 1, none, none, none, false⟩ false).indexCount ≤ 65535) ∧
    ((GltfDoc.mk (some [quatX, 0, 0, quatW])
        (some ((-(1 / 2), -(1 / 4), -(1 / 2)),
          ((1 / 2 : ℚ), (1 / 4 : ℚ), (1 / 2 : ℚ)))) 24 36 5123
        ⟨0, 1, none, none, none, false⟩ false).indexComponentType = 5125 ↔
      (GltfDoc.mk (some [quatX, 0, 0, quatW])
        (some ((-(1 / 2), -(1 / 4), -(1 / 2)),
          ((1 / 2 : ℚ), (1 / 4 : ℚ), (1 / 2 : ℚ)))) 24 36 5123
        ⟨0, 1, none, none, none, false⟩ false).indexCount > 65535) ∧
    (GltfDoc.mk (some [quatX, 0, 0, quatW])
        (some ((-(1 / 2), -(1 / 4), -(1 / 2)),
          ((1 / 2 : ℚ), (1 / 4 : ℚ), (1 / 2 : ℚ)))) 24 36 5123
        ⟨0, 1, none, none, none, false⟩ false).indexCount =
      36 * (opaquePixels 1 1 4 [255, 255, 255, 255]).length ∧
    (GltfDoc.mk (some [quatX, 0, 0, quatW])
        (some ((-(1 / 2), -(1 / 4), -(1 / 2)),
          ((1 / 2 : ℚ), (1 / 4 : ℚ), (1 / 2 : ℚ)))) 24 36 5123
        ⟨0, 1, none, none, none, false⟩ false).vertexCount =
      24 * (opaquePixels 1 1 4 [255, 255, 255, 255]).length :=
  c9_index_width trigTrivial ⟨"m", [], []⟩ (buildAtlas []) (1 / 16)
    ⟨[], [], [], [], false⟩ "m" false 1 1 [255, 255, 255, 255] 1 .zUp false _
    rfl (scenario1_doc false)
/-- C4: for an unrotated element, the north-face quad is corners 1, 0, 3, 2 —
positions `(to.x,from.y,from.z)`, `(from.x,from.y,from.z)`,
`(from.x,to.y,from.z)`, `(to.x,to.y,from.z)` in that order, centered at 8 and
scaled — with all four vertex normals `(0, 0, -1)`, and an element with all
six faces defined contributes exactly 24 vertices and 36 indices. -/
theorem c4_north_face (trig : Trig) (f t : Vec3)
    (fd fd0 fd1 fd2 fd3 fd4 fd5 : FaceData) (model : Model)
    (atlas : TextureAtlas) (scale : ℚ) (st st' st2 st2' : MeshSt)
    (hn : buildElement trig ⟨some f, some t, none, some [("north", fd)]⟩
      model atlas scale st = .ok st')
    (h6 : buildElement trig ⟨some f, some t, none,
      some [("north", fd0), ("south", fd1), ("east", fd2), ("west", fd3),
        ("up", fd4), ("down", fd5)]⟩ model atlas scale st2 = .ok st2') :
    st'.positions = st.positions ++
      [((t.1 - 8) * scale, (f.2.1 - 8) * scale, (f.2.2 - 8) * scale),
       ((f.1 - 8) * scale, (f.2.1 - 8) * scale, (f.2.2 - 8) * scale),
       ((f.1 - 8) * scale, (t.2.1 - 8) * scale, (f.2.2 - 8) * scale),
       ((t.1 - 8) * scale, (t.2.1 - 8) * scale, (f.2.2 - 8) * scale)] ∧
    st'.normals = st.normals ++
      List.replicate 4 ((0 : ℚ), (0 : ℚ), (-1 : ℚ)) ∧
    st'.indices = st.indices ++
      [st.positions.length, st.positions.length + 1, st.positions.length + 2,
       st.positions.length, st.positions.length + 2,
       st.positions.length + 3] ∧
    st2'.positions.length = st2.positions.length + 24 ∧
    st2'.indices.length = st2.indices.length + 36 := by
  have hFD : FACE_DEFINITIONS "north" = some ⟨[1, 0, 3, 2], (0, 0, -1)⟩ := by
    simp [FACE_DEFINITIONS]
  have hr4 : List.range 4 = [0, 1, 2, 3] := rfl
  have hcnt := buildElement_ok_counts trig _ model atlas scale st2 st2' h6
  have h6faces : elementKnownFaces ⟨some f, some t, none,
      some [("north", fd0), ("south", fd1), ("east", fd2), ("west", fd3),
        ("up", fd4), ("down", fd5)]⟩ = 6 := by
    simp [elementKnownFaces, FACE_DEFINITIONS, List.countP, List.countP.go]
  rw [h6faces] at hcnt
  simp only [buildElement, List.map_cons, List.map_nil, List.foldlM,
    buildFace, hFD] at hn
  cases hu : getUV atlas fd.texture
      (some (fd.uv.getD (autoGenerateUV f t "north"))) model.rawTextures
      "north" with
  | error e =>
      rw [hu] at hn
      simp [Bind.bind, Except.bind] at hn
  | ok q =>
      rw [hu] at hn
      simp only [Bind.bind, Except.bind, hr4, List.map_cons, List.map_nil,
        List.getD, List.getElem?_cons_zero, List.getElem?_cons_succ,
        Option.getD_some] at hn
      cases hn
      refine ⟨by simp, by simp, by simp, ?_, ?_⟩
      · omega
      · omega
/-- Extract the success value of a mesh-building step, with a default. -/
def exceptOkD (r : Except String MeshSt) (d : MeshSt) : MeshSt :=
  match r with
  | .ok a => a
  | .error _ => d

/-- Witness for C4 at the chest-like element `from=[1,0,1]`, `to=[15,10,15]`
with identity 0–16 UVs. -/
theorem c4_witness :
    (exceptOkD (buildElement trigTrivial ⟨some (1, 0, 1), some (15, 10, 15),
        none, some [("north", ⟨none, some (0, 0, 16, 16), none⟩)]⟩
        ⟨"m", [], []⟩ (buildAtlas []) (1 / 16) MeshSt.empty)
        MeshSt.empty).positions =
      MeshSt.empty.positions ++
        [(((15 : ℚ) - 8) * (1 / 16), ((0 : ℚ) - 8) * (1 / 16),
          ((1 : ℚ) - 8) * (1 / 16)),
         (((1 : ℚ) - 8) * (1 / 16), ((0 : ℚ) - 8) * (1 / 16),
          ((1 : ℚ) - 8) * (1 / 16)),
         (((1 : ℚ) - 8) * (1 / 16), ((10 : ℚ) - 8) * (1 / 16),
          ((1 : ℚ) - 8) * (1 / 16)),
         (((15 : ℚ) - 8) * (1 / 16), ((10 : ℚ) - 8) * (1 / 16),
          ((1 : ℚ) - 8) * (1 / 16))] ∧
    (exceptOkD (buildElement trigTrivial ⟨some (1, 0, 1), some (15, 10, 15),
        none, some [("north", ⟨none, some (0, 0, 16, 16), none⟩)]⟩
        ⟨"m", [], []⟩ (buildAtlas []) (1 / 16) MeshSt.empty)
        MeshSt.empty).normals =
      MeshSt.empty.normals ++ List.replicate 4 ((0 : ℚ), (0 : ℚ), (-1 : ℚ)) ∧
    (exceptOkD (buildElement trigTrivial ⟨some (1, 0, 1), some (15, 10, 15),
        none, some [("north", ⟨none, some (0, 0, 16, 16), none⟩)]⟩
        ⟨"m", [], []⟩ (buildAtlas []) (1 / 16) MeshSt.empty)
        MeshSt.empty).indices =
      MeshSt.empty.indices ++
        [MeshSt.empty.positions.length, MeshSt.empty.positions.length + 1,
         MeshSt.empty.positions.length + 2, MeshSt.empty.positions.length,
         MeshSt.empty.positions.length + 2,
         MeshSt.empty.positions.length + 3] ∧
    (exceptOkD (buildElement trigTrivial ⟨some (1, 0, 1), some (15, 10, 15),
        none, some [("north", ⟨none, some (0, 0, 16, 16), none⟩),
          ("south", ⟨none, some (0, 0, 16, 16), none⟩),
          ("east", ⟨none, some (0, 0, 16, 16), none⟩),
          ("west", ⟨none, some (0, 0, 16, 16), none⟩),
          ("up", ⟨none, some (0, 0, 16, 16), none⟩),
          ("down", ⟨none, some (0, 0, 16, 16), none⟩)]⟩
        ⟨"m", [], []⟩ (buildAtlas []) (1 / 16) MeshSt.empty)
        MeshSt.empty).positions.length =
      MeshSt.empty.positions.length + 24 ∧
    (exceptOkD (buildElement trigTrivial ⟨some (1, 0, 1), some (15, 10, 15),
        none, some [("north", ⟨none, some (0, 0, 16, 16), none⟩),
          ("south", ⟨none, some (0, 0, 16, 16), none⟩),
          ("east", ⟨none, some (0, 0, 16, 16), none⟩),
          ("west", ⟨none, some (0, 0, 16, 16), none⟩),
          ("up", ⟨none, some (0, 0, 16, 16), none⟩),
          ("down", ⟨none, some (0, 0, 16, 16), none⟩)]⟩
        ⟨"m", [], []⟩ (buildAtlas []) (1 / 16) MeshSt.empty)
        MeshSt.empty).indices.length =
      MeshSt.empty.indices.length + 36 := by
  have hTN1 : facesTexNone (⟨some (1, 0, 1), some (15, 10, 15), none,
      some [("north", ⟨none, some (0, 0, 16, 16), none⟩)]⟩ : Element) := by
    intro fs hfs p hp
    cases hfs
    fin_cases hp <;> rfl
  have hTN6 : facesTexNone (⟨some (1, 0, 1), some (15, 10, 15), none,
      some [("north", ⟨none, some (0, 0, 16, 16), none⟩),
        ("south", ⟨none, some (0, 0, 16, 16), none⟩),
        ("east", ⟨none, some (0, 0, 16, 16), none⟩),
        ("west", ⟨none, some (0, 0, 16, 16), none⟩),
        ("up", ⟨none, some (0, 0, 16, 16), none⟩),
        ("down", ⟨none, some (0, 0, 16, 16), none⟩)]⟩ : Element) := by
    intro fs hfs p hp
    cases hfs
    fin_cases hp <;> rfl
  have hn : buildElement trigTrivial ⟨some (1, 0, 1), some (15, 10, 15),
      none, some [("north", ⟨none, some (0, 0, 16, 16), none⟩)]⟩
      ⟨"m", [], []⟩ (buildAtlas []) (1 / 16) MeshSt.empty =
      .ok (exceptOkD (buildElement trigTrivial ⟨some (1, 0, 1),
        some (15, 10, 15), none,
        some [("north", ⟨none, some (0, 0, 16, 16), none⟩)]⟩
        ⟨"m", [], []⟩ (buildAtlas []) (1 / 16) MeshSt.empty)
        MeshSt.empty) := by
    obtain ⟨st', h⟩ := buildElement_texNone_ok trigTrivial _ ⟨"m", [], []⟩
      (1 / 16) MeshSt.empty hTN1
    rw [h]
    rfl
  have h6 : buildElement trigTrivial ⟨some (1, 0, 1), some (15, 10, 15),
      none, some [("north", ⟨none, some (0, 0, 16, 16), none⟩),
        ("south", ⟨none, some (0, 0, 16, 16), none⟩),
        ("east", ⟨none, some (0, 0, 16, 16), none⟩),
        ("west", ⟨none, some (0, 0, 16, 16), none⟩),
        ("up", ⟨none, some (0, 0, 16, 16), none⟩),
        ("down", ⟨none, some (0, 0, 16, 16), none⟩)]⟩
      ⟨"m", [], []⟩ (buildAtlas []) (1 / 16) MeshSt.empty =
      .ok (exceptOkD (buildElement trigTrivial ⟨some (1, 0, 1),
        some (15, 10, 15), none,
        some [("north", ⟨none, some (0, 0, 16, 16), none⟩),
          ("south", ⟨none, some (0, 0, 16, 16), none⟩),
          ("east", ⟨none, some (0, 0, 16, 16), none⟩),
          ("west", ⟨none, some (0, 0, 16, 16), none⟩),
          ("up", ⟨none, some (0, 0, 16, 16), none⟩),
          ("down", ⟨none, some (0, 0, 16, 16), none⟩)]⟩
        ⟨"m", [], []⟩ (buildAtlas []) (1 / 16) MeshSt.empty)
        MeshSt.empty) := by
    obtain ⟨st', h⟩ := buildElement_texNone_ok trigTrivial _ ⟨"m", [], []⟩
      (1 / 16) MeshSt.empty hTN6
    rw [h]
    rfl
  exact c4_north_face trigTrivial (1, 0, 1) (15, 10, 15)
    ⟨none, some (0, 0, 16, 16), none⟩ ⟨none, some (0, 0, 16, 16), none⟩
    ⟨none, some (0, 0, 16, 16), none⟩ ⟨none, some (0, 0, 16, 16), none⟩
    ⟨none, some (0, 0, 16, 16), none⟩ ⟨none, some (0, 0, 16, 16), none⟩
    ⟨none, some (0, 0, 16, 16), none⟩ ⟨"m", [], []⟩ (buildAtlas []) (1 / 16)
    MeshSt.empty _ MeshSt.empty _ hn h6
/-- C5: atlas UV remapping is affine — a normalized `(u,v)` for a texture at
tile `(tx,ty)` with tile size `T` in a `(W,H)` atlas maps to
`((tx+u·T)/W, (ty+v·T)/H)` — and is applied only when more than one texture
is loaded; for an atlas of two 16×16 textures (32×32, tile 1 at (16,0)) the
face UV `(0,0,16,16)` referencing tile 1 remaps to `(0.5, 0, 1, 0.5)`. -/
theorem c5_uv_affine (atlas : TextureAtlas) (textureRef : Option String)
    (raw : List (String × String)) (u1 v1 u2 v2 : ℚ) (tex : TextureInfo)
    (htex : getTextureByRef atlas (resolveRefPath textureRef raw) =
      .ok (some tex))
    (hmulti : atlas.textures.length > 1)
    (hu : u1 ≤ u2) (hv : v1 ≤ v2)
    (hW : 0 < atlas.atlasWidth) (hH : 0 < atlas.atlasHeight) :
    getUV atlas textureRef (some (u1, v1, u2, v2)) raw "north" =
      .ok [((tex.x : ℚ) + u1 / 16 * atlas.textureSize) / atlas.atlasWidth,
           ((tex.y : ℚ) + v2 / 16 * atlas.textureSize) / atlas.atlasHeight,
           ((tex.x : ℚ) + u2 / 16 * atlas.textureSize) / atlas.atlasWidth,
           ((tex.y : ℚ) + v2 / 16 * atlas.textureSize) / atlas.atlasHeight,
           ((tex.x : ℚ) + u2 / 16 * atlas.textureSize) / atlas.atlasWidth,
           ((tex.y : ℚ) + v1 / 16 * atlas.textureSize) / atlas.atlasHeight,
           ((tex.x : ℚ) + u1 / 16 * atlas.textureSize) / atlas.atlasWidth,
           ((tex.y : ℚ) + v1 / 16 * atlas.textureSize) / atlas.atlasHeight] ∧
    (∀ (atlas1 : TextureAtlas) (tr : Option String)
        (raw1 : List (String × String)) (o : Option TextureInfo)
        (w1 x1 y1 z1 : ℚ),
        getTextureByRef atlas1 (resolveRefPath tr raw1) = .ok o →
        ¬ atlas1.textures.length > 1 →
        w1 ≤ y1 → x1 ≤ z1 →
        getUV atlas1 tr (some (w1, x1, y1, z1)) raw1 "north" =
          .ok [w1 / 16, z1 / 16, y1 / 16, z1 / 16, y1 / 16, x1 / 16,
            w1 / 16, x1 / 16]) ∧
    (buildAtlas [("a.png", 16, 16), ("b.png", 16, 16)]).atlasWidth = 32 ∧
    (buildAtlas [("a.png", 16, 16), ("b.png", 16, 16)]).atlasHeight = 32 ∧
    ((buildAtlas [("a.png", 16, 16), ("b.png", 16, 16)]).textures.map
      (fun p => (p.2.x, p.2.y))) = [(0, 0), (16, 0)] ∧
    getUV (buildAtlas [("a.png", 16, 16), ("b.png", 16, 16)]) (some "#t1")
      (some (0, 0, 16, 16)) [("t1", "b.png")] "north" =
      .ok [1 / 2, 1 / 2, 1, 1 / 2, 1, 0, 1 / 2, 0] := by
  have hWne : ((atlas.atlasWidth : ℚ)) ≠ 0 := by
    exact_mod_cast Nat.pos_iff_ne_zero.mp hW
  have hHne : ((atlas.atlasHeight : ℚ)) ≠ 0 := by
    exact_mod_cast Nat.pos_iff_ne_zero.mp hH
  have h16 : (0 : ℚ) < 16 := by norm_num
  have hfu : ¬ (u1 / 16 > u2 / 16) := by
    simp only [not_lt]
    exact (div_le_div_iff_of_pos_right h16).mpr hu
  have hfv : ¬ (v1 / 16 > v2 / 16) := by
    simp only [not_lt]
    exact (div_le_div_iff_of_pos_right h16).mpr hv
  have hnu : ("north" = "up") = False := by simp
  have hnd : ("north" = "down") = False := by simp
  refine ⟨?_, ?_, by decide, by decide, by decide, ?_⟩
  · simp only [getUV, htex, Option.getD_some, hfu, hfv, if_false, hmulti,
      if_true, ite_false, ite_true, hnu, hnd]
    simp only [Except.ok.injEq, List.cons.injEq, and_true]
    refine ⟨?_, ?_, ?_, ?_, ?_, ?_, ?_, ?_⟩ <;> (field_simp; ring)
  · intro atlas1 tr raw1 o w1 x1 y1 z1 ho hm hwy hxz
    have hf1 : ¬ (w1 / 16 > y1 / 16) := by
      simp only [not_lt]
      exact (div_le_div_iff_of_pos_right h16).mpr hwy
    have hf2 : ¬ (x1 / 16 > z1 / 16) := by
      simp only [not_lt]
      exact (div_le_div_iff_of_pos_right h16).mpr hxz
    cases o with
    | none =>
        simp only [getUV, ho, Option.getD_some, hf1, hf2, if_false,
          ite_false, ite_true, hnu, hnd]
    | some tex1 =>
        simp only [getUV, ho, Option.getD_some, hf1, hf2, if_false, hm,
          ite_false, ite_true, hnu, hnd]
  · have ht : resolveRefPath (some "#t1") [("t1", "b.png")] =
        some "b.png" := by
      simp [resolveRefPath, jsStartsWith, resolveTextureChain, jsDropOne]
    have htex2 : getTextureByRef (buildAtlas [("a.png", 16, 16),
        ("b.png", 16, 16)]) (some "b.png") =
        .ok (some ⟨"b.png", 16, 16, 16, 0⟩) := rfl
    have hA : buildAtlas [("a.png", 16, 16), ("b.png", 16, 16)] =
        ⟨[("a.png", ⟨"a.png", 16, 16, 0, 0⟩),
          ("b.png", ⟨"b.png", 16, 16, 16, 0⟩)], 32, 32, 16⟩ := rfl
    simp only [getUV, ht, htex2, Option.getD_some, hnu, hnd]
    simp only [hA]
    norm_num

/-- Texture record of tile 1 in the two-texture atlas scenario. -/
def tileB : TextureInfo := ⟨"b.png", 16, 16, 16, 0⟩

/-- The two-texture atlas of scenario 5. -/
def atlas2 : TextureAtlas := buildAtlas [("a.png", 16, 16), ("b.png", 16, 16)]

/-- Witness for C5 at the scenario-5 atlas and face UV. -/
theorem c5_witness :
    getUV atlas2 (some "#t1") (some (0, 0, 16, 16)) [("t1", "b.png")]
      "north" =
      .ok [((tileB.x : ℚ) + 0 / 16 * atlas2.textureSize) / atlas2.atlasWidth,
           ((tileB.y : ℚ) + 16 / 16 * atlas2.textureSize) /
             atlas2.atlasHeight,
           ((tileB.x : ℚ) + 16 / 16 * atlas2.textureSize) / atlas2.atlasWidth,
           ((tileB.y : ℚ) + 16 / 16 * atlas2.textureSize) /
             atlas2.atlasHeight,
           ((tileB.x : ℚ) + 16 / 16 * atlas2.textureSize) / atlas2.atlasWidth,
           ((tileB.y : ℚ) + 0 / 16 * atlas2.textureSize) / atlas2.atlasHeight,
           ((tileB.x : ℚ) + 0 / 16 * atlas2.textureSize) / atlas2.atlasWidth,
           ((tileB.y : ℚ) + 0 / 16 * atlas2.textureSize) /
             atlas2.atlasHeight] :=
  (c5_uv_affine atlas2 (some "#t1") [("t1", "b.png")] 0 0 16 16 tileB
    (by
      have ht : resolveRefPath (some "#t1") [("t1", "b.png")] =
          some "b.png" := by
        simp [resolveRefPath, jsStartsWith, resolveTextureChain, jsDropOne]
      rw [ht]
      rfl)
    (by decide) (by norm_num) (by norm_num) (by decide) (by decide)).1

/-- A model whose single element's north face references `#body`, an alias
that resolves to nothing (`rawTextures` is empty). -/
def modelC6 : Model :=
  ⟨"m", [⟨some (0, 0, 0), some (16, 16, 16), none,
    some [("north", ⟨some "#body", none, none⟩)]⟩], []⟩

/-- C6: with at least one loaded texture, a face whose texture reference is a
`#` alias chain resolving to nothing makes mesh generation **throw** — the
fallback-to-first-texture path is never reached because `getTextureByRef`
evaluates `ref.replace('block/', '')` on a null `ref` — contradicting the
never-fatal claim. -/
theorem c6_missing_texture_ref_throws :
    buildGeometry trigTrivial modelC6 (buildAtlas [("item/apple.png", 16, 16)])
      (1 / 16) = .error "TypeError: null has no method replace" := by
  have hpath : resolveRefPath (some "#body") [] = none := by
    simp [resolveRefPath, jsStartsWith, resolveTextureChain, jsDropOne]
  simp [buildGeometry, buildElement, buildFace, getUV, hpath, getTextureByRef,
    getTextureByRefFind, strIncludes, listIncludes, List.isPrefixOf,
    jsToString, FACE_DEFINITIONS, buildAtlas, loadTexturesSize, modelC6,
    List.foldlM, MeshSt.empty]

end TexVox
